import Mathlib

/-!
# FRR_PBR: the GL widget of the image-based-lighting viewer

A shallow embedding of `src/glwidget.cc` / `src/glwidget.h`.

* Every OpenGL entry point the widget calls is a constructor of `GLCall`; a
  function of the widget is a function on `World`, which carries the widget's
  member variables, the supply of unused GL object names and the list of GL
  calls issued so far, in program order.
* What the widget reads from outside (shader files, the shader compiler and
  linker, uniform lookups, image decoders, the PLY reader) is a field of `Env`.
* `float` / `double` values are idealised as rationals.
* Console output (`std::cerr`, `std::cout`), Qt signals, `glewInit` and the
  release of decoder memory are not modelled.
-/

namespace FRR

/-! ## Scalars, vectors, matrices -/

abbrev GLuint := Nat
abbrev GLint := Int
abbrev GLenum := Nat
abbrev GLfloat := ℚ

abbrev Vec3 := Fin 3 → ℚ
abbrev Mat3 := Matrix (Fin 3) (Fin 3) ℚ
abbrev Mat4 := Matrix (Fin 4) (Fin 4) ℚ

/-! ## OpenGL constants (values of the OpenGL headers) -/

def GL_FALSE : GLenum := 0
def GL_TRIANGLES : GLenum := 0x0004
def GL_TRIANGLE_STRIP : GLenum := 0x0005
def GL_DEPTH_BUFFER_BIT : GLenum := 0x0100
def GL_COLOR_BUFFER_BIT : GLenum := 0x4000
def GL_LEQUAL : GLenum := 0x0203
def GL_BACK : GLenum := 0x0405
def GL_CULL_FACE : GLenum := 0x0B44
def GL_DEPTH_TEST : GLenum := 0x0B71
def GL_NORMALIZE : GLenum := 0x0BA1
def GL_TEXTURE_2D : GLenum := 0x0DE1
def GL_UNSIGNED_BYTE : GLenum := 0x1401
def GL_UNSIGNED_INT : GLenum := 0x1405
def GL_FLOAT : GLenum := 0x1406
def GL_RGB : GLenum := 0x1907
def GL_RGBA : GLenum := 0x1908
def GL_LINEAR : GLenum := 0x2601
def GL_LINEAR_MIPMAP_LINEAR : GLenum := 0x2703
def GL_TEXTURE_MAG_FILTER : GLenum := 0x2800
def GL_TEXTURE_MIN_FILTER : GLenum := 0x2801
def GL_TEXTURE_WRAP_S : GLenum := 0x2802
def GL_TEXTURE_WRAP_T : GLenum := 0x2803
def GL_TEXTURE_WRAP_R : GLenum := 0x8072
def GL_BGRA : GLenum := 0x80E1
def GL_CLAMP_TO_EDGE : GLenum := 0x812F
def GL_DEPTH_COMPONENT24 : GLenum := 0x81A6
def GL_RG : GLenum := 0x8227
def GL_RG16F : GLenum := 0x822F
def GL_TEXTURE0 : GLenum := 0x84C0
def GL_TEXTURE1 : GLenum := 0x84C1
def GL_TEXTURE2 : GLenum := 0x84C2
def GL_TEXTURE_CUBE_MAP : GLenum := 0x8513
def GL_TEXTURE_CUBE_MAP_POSITIVE_X : GLenum := 0x8515
def GL_TEXTURE_CUBE_MAP_NEGATIVE_X : GLenum := 0x8516
def GL_TEXTURE_CUBE_MAP_POSITIVE_Y : GLenum := 0x8517
def GL_TEXTURE_CUBE_MAP_NEGATIVE_Y : GLenum := 0x8518
def GL_TEXTURE_CUBE_MAP_POSITIVE_Z : GLenum := 0x8519
def GL_TEXTURE_CUBE_MAP_NEGATIVE_Z : GLenum := 0x851A
def GL_RGB16F : GLenum := 0x881B
def GL_TEXTURE_CUBE_MAP_SEAMLESS : GLenum := 0x884F
def GL_ARRAY_BUFFER : GLenum := 0x8892
def GL_ELEMENT_ARRAY_BUFFER : GLenum := 0x8893
def GL_STATIC_DRAW : GLenum := 0x88E4
def GL_COLOR_ATTACHMENT0 : GLenum := 0x8CE0
def GL_DEPTH_ATTACHMENT : GLenum := 0x8D00
def GL_FRAMEBUFFER : GLenum := 0x8D40
def GL_RENDERBUFFER : GLenum := 0x8D41

/-! ## Constants of the anonymous namespace of `glwidget.cc` -/

def kReflectionVertexShaderFile : String := "../shaders/reflection.vert"
def kReflectionFragmentShaderFile : String := "../shaders/reflection.frag"
def kBRDFVertexShaderFile : String := "../shaders/brdf.vert"
def kBRDFFragmentShaderFile : String := "../shaders/brdf.frag"
def kPBRVertexShaderFile : String := "../shaders/pbr.vert"
def kPBRFragmentShaderFile : String := "../shaders/pbr.frag"
def kSkyVertexShaderFile : String := "../shaders/sky.vert"
def kSkyFragmentShaderFile : String := "../shaders/sky.frag"
def kCubemapVertexShaderFile : String := "../shaders/cubemap.vert"
def kEquiToCubeFragmentShaderFile : String := "../shaders/equirectangular_to_cubemap.frag"
def kIrradianceFragmentShaderFile : String := "../shaders/irradiance.frag"
def kPrefilterFragmentShaderFile : String := "../shaders/prefilter.frag"

def kVertexAttributeIdx : Nat := 0
def kNormalAttributeIdx : Nat := 1

def maxMipLevels : Nat := 5

/-! ## Data handed to OpenGL -/

/-- The client memory a `glTexImage2D` call reads: nothing (a null pointer),
bytes, or floats. -/
inductive PixelData where
  | null
  | bytes (bits : List Nat)
  | floats (data : List ℚ)
  deriving DecidableEq

/-- The client memory a `glBufferData` call reads. -/
inductive BufferData where
  | floats (data : List ℚ)
  | ints (data : List Int)
  deriving DecidableEq

/-- The seven shader programs the widget owns, named as its members. -/
inductive ProgramId where
  | reflection_program_
  | brdf_program_
  | sky_program_
  | equirect_to_cubemap_program_
  | irradiance_program_
  | pbr_program_
  | prefilter_program_
  deriving DecidableEq, Repr

/-- One call into OpenGL, with the arguments the widget passes.  A `glGen*`
call is recorded with the name the driver handed back; `bind` is
`QOpenGLShaderProgram::bind` of the named program. -/
inductive GLCall where
  | glGenTextures (name : GLuint)
  | glGenFramebuffers (name : GLuint)
  | glGenRenderbuffers (name : GLuint)
  | glGenVertexArrays (name : GLuint)
  | glGenBuffers (name : GLuint)
  | glBindTexture (target : GLenum) (texture : GLuint)
  | glTexImage2D (target : GLenum) (level : Nat) (internalformat : GLenum)
      (width height : Int) (border : Nat) (format type : GLenum) (pixels : PixelData)
  | glTexParameteri (target pname param : GLenum)
  | glGenerateMipmap (target : GLenum)
  | glActiveTexture (texture : GLenum)
  | glBindFramebuffer (target : GLenum) (framebuffer : GLuint)
  | glBindRenderbuffer (target : GLenum) (renderbuffer : GLuint)
  | glRenderbufferStorage (target internalformat : GLenum) (width height : Nat)
  | glFramebufferRenderbuffer (target attachment renderbuffertarget : GLenum)
      (renderbuffer : GLuint)
  | glFramebufferTexture2D (target attachment textarget : GLenum) (texture : GLuint)
      (level : Nat)
  | glViewport (x y : Int) (width height : Nat)
  | glClearColor (red green blue alpha : ℚ)
  | glClear (mask : Nat)
  | glBindVertexArray (array : GLuint)
  | glBindBuffer (target : GLenum) (buffer : GLuint)
  | glBufferData (target : GLenum) (size : Nat) (data : BufferData) (usage : GLenum)
  | glEnableVertexAttribArray (index : Nat)
  | glVertexAttribPointer (index size : Nat) (type normalized : GLenum)
      (stride pointer : Nat)
  | glDrawArrays (mode : GLenum) (first count : Nat)
  | glDrawElements (mode : GLenum) (count : Nat) (type : GLenum) (indices : Nat)
  | glUniform1i (location : GLint) (v0 : Int)
  | glUniform1f (location : GLint) (v0 : ℚ)
  | glUniform3fv (location : GLint) (count : Nat) (value : Vec3)
  | glUniformMatrix3fv (location : GLint) (count : Nat) (transpose : GLenum)
      (value : Mat3)
  | glUniformMatrix4fv (location : GLint) (count : Nat) (transpose : GLenum)
      (value : Mat4)
  | bind (program : ProgramId)
  | glEnable (cap : GLenum)
  | glCullFace (mode : GLenum)
  | glDepthFunc (func : GLenum)
  deriving DecidableEq

/-! ## Objects of Qt, stb_image and the mesh library -/

/-- A decoded `QImage`: its size and the bytes `bits()` points to. -/
structure QImage where
  width : Int
  height : Int
  bits : List Nat
  deriving DecidableEq

/-- What a successful `stbi_loadf(path, &width, &height, &nrComponents, 0)`
hands back: the three out-parameters and the float buffer. -/
structure StbiImage where
  width : Int
  height : Int
  nrComponents : Int
  data : List ℚ
  deriving DecidableEq

/-- The layout stb_image documents for a requested component count of 0: the
buffer holds `width * height * nrComponents` floats, and the file stores
between one and four channels. -/
def StbiImage.WellFormed (img : StbiImage) : Prop :=
  0 < img.width ∧ 0 < img.height ∧ 1 ≤ img.nrComponents ∧ img.nrComponents ≤ 4 ∧
    (img.data.length : Int) = img.width * img.height * img.nrComponents

instance (img : StbiImage) : Decidable img.WellFormed := by
  unfold StbiImage.WellFormed; infer_instance

/-- The members of `data_representation::TriangleMesh` the widget reads. -/
structure TriangleMesh where
  vertices_ : List ℚ
  faces_ : List Int
  buffer_ : List ℚ
  min_ : Vec3
  max_ : Vec3

inductive ShaderType where
  | Vertex
  | Fragment
  deriving DecidableEq, Repr

/-- A `QOpenGLShaderProgram`: the shaders added so far (with the result of
compiling each), the attribute locations bound, and whether the last `link`
succeeded. -/
structure QOpenGLShaderProgram where
  shaders : List (ShaderType × String × Bool)
  attributes : List (String × Nat)
  linked : Bool
  deriving DecidableEq

/-- The program `std::make_unique<QOpenGLShaderProgram>()` creates. -/
def QOpenGLShaderProgram.new : QOpenGLShaderProgram :=
  { shaders := [], attributes := [], linked := false }

/-- What `data_visualization::Camera` (declared in `camera.h`) answers for the
current camera state: the matrices its `Set*` getters return and the GL calls
its `SetViewport()` issues. -/
structure Camera where
  SetViewport : List GLCall
  SetProjection : Mat4
  SetView : Mat4
  SetModel : Mat4
  SetIdentity : Mat4

/-- Everything the widget reads from outside the process. -/
structure Env where
  /-- The contents of a file `std::ifstream` can open, `none` otherwise. -/
  fileContents : String → Option String
  /-- The result of `addShaderFromSourceCode` on a source text. -/
  compiles : ShaderType → String → Bool
  /-- The result of `link` on a program with the given shaders. -/
  links : List (ShaderType × String × Bool) → Bool
  /-- The result of `uniformLocation(name)` on a program; -1 when absent. -/
  uniformLocation : ProgramId → String → GLint
  /-- The result of `QImage::load`. -/
  qimageLoad : String → Option QImage
  /-- The result of `stbi_loadf`; `none` is the null pointer. -/
  stbi_loadf : String → Option StbiImage
  /-- The result of `data_representation::ReadFromPly`. -/
  ReadFromPly : String → Option TriangleMesh
  /-- The camera after `UpdateModel(min, max)`. -/
  UpdateModel : Camera → Vec3 → Vec3 → Camera

/-! ## The widget -/

/-- The member variables of `GLWidget`. -/
structure GLWidget where
  reflection_program_ : QOpenGLShaderProgram
  brdf_program_ : QOpenGLShaderProgram
  sky_program_ : QOpenGLShaderProgram
  equirect_to_cubemap_program_ : QOpenGLShaderProgram
  irradiance_program_ : QOpenGLShaderProgram
  prefilter_program_ : QOpenGLShaderProgram
  pbr_program_ : QOpenGLShaderProgram
  camera_ : Camera
  mesh_ : Option TriangleMesh
  diffuse_map_ : GLuint
  specular_map_ : GLuint
  modelVAO : GLuint
  modelVBO : GLuint
  modelEBO : GLuint
  skyboxVAO : GLuint
  skyboxVBO : GLuint
  captureFBO : GLuint
  captureRBO : GLuint
  hdrTexture : GLuint
  envCubemap : GLuint
  irradianceMap : GLuint
  prefilterMap : GLuint
  brdfLUTTexture : GLuint
  metalnessParameter : ℚ
  roughnessParameter : ℚ
  initialized_ : Bool
  width_ : ℚ
  height_ : ℚ
  reflection_ : Bool
  fresnel_ : Vec3

/-- The widget, the next GL object name the driver has not handed out yet, and
the GL calls issued so far (oldest first). -/
structure World where
  self : GLWidget
  nextName : GLuint
  calls : List GLCall

/-- Issue one GL call. -/
def World.emit (s : World) (c : GLCall) : World :=
  { s with calls := s.calls ++ [c] }

/-- Issue a list of GL calls. -/
def World.emits (s : World) (cs : List GLCall) : World :=
  { s with calls := s.calls ++ cs }

/-- A `glGen*(1, &member)` call: the driver hands out its next unused name, the
call is recorded by `mk`, and `store` writes the name into the member. -/
def World.gen (s : World) (mk : GLuint → GLCall) (store : GLWidget → GLuint → GLWidget) :
    World :=
  { self := store s.self s.nextName, nextName := s.nextName + 1,
    calls := s.calls ++ [mk s.nextName] }

/-- A `glGen*(1, &local)` call into a local variable: the new name and the world
after the call. -/
def World.genLocal (s : World) (mk : GLuint → GLCall) : GLuint × World :=
  (s.nextName, { s with nextName := s.nextName + 1, calls := s.calls ++ [mk s.nextName] })

/-! ## Cube maps from six image files -/

/-- The function `LoadImage`: loads the file and, when that worked, uploads it
to the given cube face.  The upload reads `image`; the mirrored copy `gl_image`
the source also makes is not used by it. -/
def LoadImage (env : Env) (path : String) (cube_map_pos : GLenum) (s : World) :
    Bool × World :=
  match env.qimageLoad path with
  | some image =>
    (true, s.emit (.glTexImage2D cube_map_pos 0 GL_RGBA image.width image.height 0
                    GL_BGRA GL_UNSIGNED_BYTE (.bytes image.bits)))
  | none => (false, s)

/-- The statement `res = res && LoadImage(...)` of `LoadCubeMap`: the image is
loaded only when `res` is still true. -/
def andLoadImage (env : Env) (path : String) (cube_map_pos : GLenum) (r : Bool × World) :
    Bool × World :=
  if r.1 then LoadImage env path cube_map_pos r.2 else (false, r.2)

/-- The function `LoadCubeMap`. -/
def LoadCubeMap (env : Env) (dir : String) (s : World) : Bool × World :=
  let path := dir
  let r := LoadImage env (path ++ "/right.png") GL_TEXTURE_CUBE_MAP_POSITIVE_X s
  let r := andLoadImage env (path ++ "/left.png") GL_TEXTURE_CUBE_MAP_NEGATIVE_X r
  let r := andLoadImage env (path ++ "/top.png") GL_TEXTURE_CUBE_MAP_POSITIVE_Y r
  let r := andLoadImage env (path ++ "/bottom.png") GL_TEXTURE_CUBE_MAP_NEGATIVE_Y r
  let r := andLoadImage env (path ++ "/back.png") GL_TEXTURE_CUBE_MAP_POSITIVE_Z r
  let r := andLoadImage env (path ++ "/front.png") GL_TEXTURE_CUBE_MAP_NEGATIVE_Z r
  if r.1 then
    (true, r.2.emits
      [ .glTexParameteri GL_TEXTURE_CUBE_MAP GL_TEXTURE_MAG_FILTER GL_LINEAR,
        .glTexParameteri GL_TEXTURE_CUBE_MAP GL_TEXTURE_MIN_FILTER GL_LINEAR,
        .glTexParameteri GL_TEXTURE_CUBE_MAP GL_TEXTURE_WRAP_S GL_CLAMP_TO_EDGE,
        .glTexParameteri GL_TEXTURE_CUBE_MAP GL_TEXTURE_WRAP_T GL_CLAMP_TO_EDGE,
        .glTexParameteri GL_TEXTURE_CUBE_MAP GL_TEXTURE_WRAP_R GL_CLAMP_TO_EDGE ])
  else (false, r.2)

/-- The method `GLWidget::LoadSpecularMap`. -/
def LoadSpecularMap (env : Env) (dir : String) (s : World) : Bool × World :=
  let s := s.emit (.glBindTexture GL_TEXTURE_CUBE_MAP s.self.specular_map_)
  let r := LoadCubeMap env dir s
  (r.1, r.2.emit (.glBindTexture GL_TEXTURE_CUBE_MAP 0))

/-- The method `GLWidget::LoadDiffuseMap`. -/
def LoadDiffuseMap (env : Env) (dir : String) (s : World) : Bool × World :=
  let s := s.emit (.glBindTexture GL_TEXTURE_CUBE_MAP s.self.diffuse_map_)
  let r := LoadCubeMap env dir s
  (r.1, r.2.emit (.glBindTexture GL_TEXTURE_CUBE_MAP 0))

/-! ## Shader programs -/

/-- The function `ReadFile`: whether the file could be opened, and its text. -/
def ReadFile (env : Env) (filename : String) : Bool × String :=
  match env.fileContents filename with
  | some text => (true, text)
  | none => (false, "")

/-- The method `QOpenGLShaderProgram::addShaderFromSourceCode`: the shader is
recorded with the result of compiling it, which is also the return value. -/
def QOpenGLShaderProgram.addShaderFromSourceCode (env : Env) (p : QOpenGLShaderProgram)
    (type : ShaderType) (source : String) : Bool × QOpenGLShaderProgram :=
  (env.compiles type source,
    { p with shaders := p.shaders ++ [(type, source, env.compiles type source)] })

/-- The method `QOpenGLShaderProgram::bindAttributeLocation`. -/
def QOpenGLShaderProgram.bindAttributeLocation (p : QOpenGLShaderProgram) (name : String)
    (location : Nat) : QOpenGLShaderProgram :=
  { p with attributes := p.attributes ++ [(name, location)] }

/-- The method `QOpenGLShaderProgram::link`: the result is returned and kept. -/
def QOpenGLShaderProgram.link (env : Env) (p : QOpenGLShaderProgram) :
    Bool × QOpenGLShaderProgram :=
  (env.links p.shaders, { p with linked := env.links p.shaders })

/-- The function `LoadProgram`.  The results of `addShaderFromSourceCode` and of
`link` are discarded, as in the source; `res` is the result of reading the two
files, the second being read only when the first was. -/
def LoadProgram (env : Env) (vertex fragment : String) (program : QOpenGLShaderProgram) :
    Bool × QOpenGLShaderProgram :=
  let rv := ReadFile env vertex
  let rf := if rv.1 then ReadFile env fragment else (false, "")
  let res := rv.1 && rf.1
  if res then
    let program := (program.addShaderFromSourceCode env .Vertex rv.2).2
    let program := (program.addShaderFromSourceCode env .Fragment rf.2).2
    let program := program.bindAttributeLocation "vertex" kVertexAttributeIdx
    let program := program.bindAttributeLocation "normal" kNormalAttributeIdx
    let program := (program.link env).2
    (res, program)
  else
    (res, program)

/-! ## Capture matrices (glm) -/

def dot3 (a b : Vec3) : ℚ := a 0 * b 0 + a 1 * b 1 + a 2 * b 2

def cross3 (a b : Vec3) : Vec3 :=
  ![a 1 * b 2 - a 2 * b 1, a 2 * b 0 - a 0 * b 2, a 0 * b 1 - a 1 * b 0]

/-- The function `glm::normalize`: the vector divided by its length.  The square
root is the rational one, exact whenever the squared length is the square of a
rational (as it is for every vector `captureViews` normalises). -/
def normalize3 (v : Vec3) : Vec3 := fun i => v i / Rat.sqrt (dot3 v v)

/-- The function `glm::lookAt` (right-handed), as a row-by-column matrix. -/
def lookAt (eye center up : Vec3) : Mat4 :=
  let f := normalize3 (fun i => center i - eye i)
  let s := normalize3 (cross3 f up)
  let u := cross3 s f
  !![ s 0,  s 1,  s 2, -(dot3 s eye);
      u 0,  u 1,  u 2, -(dot3 u eye);
     -f 0, -f 1, -f 2,  dot3 f eye;
      0,    0,    0,    1]

/-- The function `glm::perspective` (right-handed, depth -1 to 1), given the
tangent of half the vertical field of view. -/
def perspective (tanHalfFovy aspect zNear zFar : ℚ) : Mat4 :=
  !![1 / (aspect * tanHalfFovy), 0, 0, 0;
     0, 1 / tanHalfFovy, 0, 0;
     0, 0, -(zFar + zNear) / (zFar - zNear), -(2 * zFar * zNear) / (zFar - zNear);
     0, 0, -1, 0]

/-- The global `captureProjection`: a field of view of 90 degrees, whose half
angle has tangent 1, aspect 1, near 0.1, far 10. -/
def captureProjection : Mat4 := perspective 1 1 (1 / 10) 10

/-- The global array `captureViews`, indexed by the face number. -/
def captureViews (i : Nat) : Mat4 :=
  match i with
  | 0 => lookAt ![0, 0, 0] ![1, 0, 0] ![0, -1, 0]
  | 1 => lookAt ![0, 0, 0] ![-1, 0, 0] ![0, -1, 0]
  | 2 => lookAt ![0, 0, 0] ![0, 1, 0] ![0, 0, 1]
  | 3 => lookAt ![0, 0, 0] ![0, -1, 0] ![0, 0, -1]
  | 4 => lookAt ![0, 0, 0] ![0, 0, 1] ![0, -1, 0]
  | _ => lookAt ![0, 0, 0] ![0, 0, -1] ![0, -1, 0]

/-! ## The precomputation pipeline -/

/-- A loop `for (unsigned int i = 0; i < n; ++i) body`. -/
def forLoop (n : Nat) (body : Nat → World → World) (s : World) : World :=
  (List.range n).foldl (fun s i => body i s) s

/-- The method `GLWidget::setupFramebuffer`. -/
def setupFramebuffer (s : World) : World :=
  let s := s.gen .glGenFramebuffers (fun w n => { w with captureFBO := n })
  let s := s.gen .glGenRenderbuffers (fun w n => { w with captureRBO := n })
  let s := s.emit (.glBindFramebuffer GL_FRAMEBUFFER s.self.captureFBO)
  let s := s.emit (.glBindRenderbuffer GL_RENDERBUFFER s.self.captureRBO)
  let s := s.emit (.glRenderbufferStorage GL_RENDERBUFFER GL_DEPTH_COMPONENT24 512 512)
  s.emit (.glFramebufferRenderbuffer GL_FRAMEBUFFER GL_DEPTH_ATTACHMENT GL_RENDERBUFFER
    s.self.captureRBO)

/-- The method `GLWidget::loadHDRenvMap`, on the result of
`stbi_loadf(path, &width, &height, &nrComponents, 0)` taken after
`stbi_set_flip_vertically_on_load(true)`. -/
def loadHDRenvMap (env : Env) (path : String) (s : World) : World :=
  match env.stbi_loadf path with
  | some img =>
    let s := s.gen .glGenTextures (fun w n => { w with hdrTexture := n })
    let s := s.emit (.glBindTexture GL_TEXTURE_2D s.self.hdrTexture)
    let s := s.emit (.glTexImage2D GL_TEXTURE_2D 0 GL_RGB16F img.width img.height 0 GL_RGB
      GL_FLOAT (.floats img.data))
    let s := s.emit (.glTexParameteri GL_TEXTURE_2D GL_TEXTURE_WRAP_S GL_CLAMP_TO_EDGE)
    let s := s.emit (.glTexParameteri GL_TEXTURE_2D GL_TEXTURE_WRAP_T GL_CLAMP_TO_EDGE)
    let s := s.emit (.glTexParameteri GL_TEXTURE_2D GL_TEXTURE_MIN_FILTER GL_LINEAR)
    s.emit (.glTexParameteri GL_TEXTURE_2D GL_TEXTURE_MAG_FILTER GL_LINEAR)
  | none => s

/-- The method `GLWidget::setupEnvMap`. -/
def setupEnvMap (env : Env) (s : World) : World :=
  let s := s.gen .glGenTextures (fun w n => { w with envCubemap := n })
  let s := s.emit (.glBindTexture GL_TEXTURE_CUBE_MAP s.self.envCubemap)
  let s := forLoop 6 (fun i s =>
    s.emit (.glTexImage2D (GL_TEXTURE_CUBE_MAP_POSITIVE_X + i) 0 GL_RGB16F 512 512 0 GL_RGB
      GL_FLOAT .null)) s
  let s := s.emit (.glTexParameteri GL_TEXTURE_CUBE_MAP GL_TEXTURE_WRAP_S GL_CLAMP_TO_EDGE)
  let s := s.emit (.glTexParameteri GL_TEXTURE_CUBE_MAP GL_TEXTURE_WRAP_T GL_CLAMP_TO_EDGE)
  let s := s.emit (.glTexParameteri GL_TEXTURE_CUBE_MAP GL_TEXTURE_WRAP_R GL_CLAMP_TO_EDGE)
  let s := s.emit (.glTexParameteri GL_TEXTURE_CUBE_MAP GL_TEXTURE_MIN_FILTER
    GL_LINEAR_MIPMAP_LINEAR)
  let s := s.emit (.glTexParameteri GL_TEXTURE_CUBE_MAP GL_TEXTURE_MAG_FILTER GL_LINEAR)
  let s := s.emit (.bind .equirect_to_cubemap_program_)
  let equirectangular_map_location :=
    env.uniformLocation .equirect_to_cubemap_program_ "equirectangularMap"
  let s := s.emit (.glUniform1i equirectangular_map_location 0)
  let projection_location := env.uniformLocation .equirect_to_cubemap_program_ "projection"
  let s := s.emit (.glUniformMatrix4fv projection_location 1 GL_FALSE captureProjection)
  let s := s.emit (.glActiveTexture GL_TEXTURE0)
  let s := s.emit (.glBindTexture GL_TEXTURE_2D s.self.hdrTexture)
  let s := s.emit (.glViewport 0 0 512 512)
  let s := s.emit (.glBindFramebuffer GL_FRAMEBUFFER s.self.captureFBO)
  let s := forLoop 6 (fun i s =>
    let view_location := env.uniformLocation .equirect_to_cubemap_program_ "view"
    let currentView := captureViews i
    let s := s.emit (.glUniformMatrix4fv view_location 1 GL_FALSE currentView)
    let s := s.emit (.glFramebufferTexture2D GL_FRAMEBUFFER GL_COLOR_ATTACHMENT0
      (GL_TEXTURE_CUBE_MAP_POSITIVE_X + i) s.self.envCubemap 0)
    let s := s.emit (.glClear (GL_COLOR_BUFFER_BIT ||| GL_DEPTH_BUFFER_BIT))
    let s := s.emit (.glBindVertexArray s.self.skyboxVAO)
    let s := s.emit (.glDrawArrays GL_TRIANGLES 0 36)
    s.emit (.glBindVertexArray 0)) s
  s.emit (.glBindFramebuffer GL_FRAMEBUFFER 0)

/-- The method `GLWidget::setupIrrMap`. -/
def setupIrrMap (env : Env) (s : World) : World :=
  let s := s.emit (.glBindTexture GL_TEXTURE_CUBE_MAP s.self.envCubemap)
  let s := s.emit (.glGenerateMipmap GL_TEXTURE_CUBE_MAP)
  let s := s.gen .glGenTextures (fun w n => { w with irradianceMap := n })
  let s := s.emit (.glBindTexture GL_TEXTURE_CUBE_MAP s.self.irradianceMap)
  let s := forLoop 6 (fun i s =>
    s.emit (.glTexImage2D (GL_TEXTURE_CUBE_MAP_POSITIVE_X + i) 0 GL_RGB16F 32 32 0 GL_RGB
      GL_FLOAT .null)) s
  let s := s.emit (.glTexParameteri GL_TEXTURE_CUBE_MAP GL_TEXTURE_WRAP_S GL_CLAMP_TO_EDGE)
  let s := s.emit (.glTexParameteri GL_TEXTURE_CUBE_MAP GL_TEXTURE_WRAP_T GL_CLAMP_TO_EDGE)
  let s := s.emit (.glTexParameteri GL_TEXTURE_CUBE_MAP GL_TEXTURE_WRAP_R GL_CLAMP_TO_EDGE)
  let s := s.emit (.glTexParameteri GL_TEXTURE_CUBE_MAP GL_TEXTURE_MIN_FILTER GL_LINEAR)
  let s := s.emit (.glTexParameteri GL_TEXTURE_CUBE_MAP GL_TEXTURE_MAG_FILTER GL_LINEAR)
  let s := s.emit (.glBindFramebuffer GL_FRAMEBUFFER s.self.captureFBO)
  let s := s.emit (.glBindRenderbuffer GL_RENDERBUFFER s.self.captureRBO)
  let s := s.emit (.glRenderbufferStorage GL_RENDERBUFFER GL_DEPTH_COMPONENT24 32 32)
  let s := s.emit (.glTexParameteri GL_TEXTURE_CUBE_MAP GL_TEXTURE_MAG_FILTER GL_LINEAR)
  let s := s.emit (.bind .irradiance_program_)
  let equirectangular_map_location :=
    env.uniformLocation .irradiance_program_ "environmentMap"
  let s := s.emit (.glUniform1i equirectangular_map_location 0)
  let projection_location := env.uniformLocation .irradiance_program_ "projection"
  let s := s.emit (.glUniformMatrix4fv projection_location 1 GL_FALSE captureProjection)
  let s := s.emit (.glActiveTexture GL_TEXTURE0)
  let s := s.emit (.glBindTexture GL_TEXTURE_CUBE_MAP s.self.envCubemap)
  let s := s.emit (.glViewport 0 0 32 32)
  let s := s.emit (.glBindFramebuffer GL_FRAMEBUFFER s.self.captureFBO)
  let s := forLoop 6 (fun i s =>
    let view_location := env.uniformLocation .irradiance_program_ "view"
    let currentView := captureViews i
    let s := s.emit (.glUniformMatrix4fv view_location 1 GL_FALSE currentView)
    let s := s.emit (.glFramebufferTexture2D GL_FRAMEBUFFER GL_COLOR_ATTACHMENT0
      (GL_TEXTURE_CUBE_MAP_POSITIVE_X + i) s.self.irradianceMap 0)
    let s := s.emit (.glClear (GL_COLOR_BUFFER_BIT ||| GL_DEPTH_BUFFER_BIT))
    let s := s.emit (.glBindVertexArray s.self.skyboxVAO)
    let s := s.emit (.glDrawArrays GL_TRIANGLES 0 36)
    s.emit (.glBindVertexArray 0)) s
  s.emit (.glBindFramebuffer GL_FRAMEBUFFER 0)

/-- The conversion `unsigned int mipWidth = 128 * std::pow(0.5, mip)`: the
product, truncated to an unsigned integer. -/
def mipSize (mip : Nat) : Nat := (Rat.floor (128 * (1 / 2 : ℚ) ^ mip)).toNat

/-- The method `GLWidget::setupPrefilterMap`. -/
def setupPrefilterMap (env : Env) (s : World) : World :=
  let s := s.gen .glGenTextures (fun w n => { w with prefilterMap := n })
  let s := s.emit (.glBindTexture GL_TEXTURE_CUBE_MAP s.self.prefilterMap)
  let s := forLoop 6 (fun i s =>
    s.emit (.glTexImage2D (GL_TEXTURE_CUBE_MAP_POSITIVE_X + i) 0 GL_RGB16F 128 128 0 GL_RGB
      GL_FLOAT .null)) s
  let s := s.emit (.glTexParameteri GL_TEXTURE_CUBE_MAP GL_TEXTURE_WRAP_S GL_CLAMP_TO_EDGE)
  let s := s.emit (.glTexParameteri GL_TEXTURE_CUBE_MAP GL_TEXTURE_WRAP_T GL_CLAMP_TO_EDGE)
  let s := s.emit (.glTexParameteri GL_TEXTURE_CUBE_MAP GL_TEXTURE_WRAP_R GL_CLAMP_TO_EDGE)
  let s := s.emit (.glTexParameteri GL_TEXTURE_CUBE_MAP GL_TEXTURE_MIN_FILTER
    GL_LINEAR_MIPMAP_LINEAR)
  let s := s.emit (.glTexParameteri GL_TEXTURE_CUBE_MAP GL_TEXTURE_MAG_FILTER GL_LINEAR)
  let s := s.emit (.glGenerateMipmap GL_TEXTURE_CUBE_MAP)
  let s := s.emit (.bind .prefilter_program_)
  let env_map_location := env.uniformLocation .prefilter_program_ "environmentMap"
  let s := s.emit (.glUniform1i env_map_location 0)
  let projection_location := env.uniformLocation .prefilter_program_ "projection"
  let s := s.emit (.glUniformMatrix4fv projection_location 1 GL_FALSE captureProjection)
  let s := s.emit (.glActiveTexture GL_TEXTURE0)
  let s := s.emit (.glBindTexture GL_TEXTURE_CUBE_MAP s.self.envCubemap)
  let s := s.emit (.glBindFramebuffer GL_FRAMEBUFFER s.self.captureFBO)
  let s := forLoop maxMipLevels (fun mip s =>
    let mipWidth := mipSize mip
    let mipHeight := mipSize mip
    let s := s.emit (.glBindRenderbuffer GL_RENDERBUFFER s.self.captureRBO)
    let s := s.emit (.glRenderbufferStorage GL_RENDERBUFFER GL_DEPTH_COMPONENT24 mipWidth
      mipHeight)
    let s := s.emit (.glViewport 0 0 mipWidth mipHeight)
    let roughness : ℚ := (mip : ℚ) / ((maxMipLevels - 1 : Nat) : ℚ)
    let roughness_location := env.uniformLocation .prefilter_program_ "roughness"
    let s := s.emit (.glUniform1f roughness_location roughness)
    forLoop 6 (fun i s =>
      let view_location := env.uniformLocation .prefilter_program_ "view"
      let currentView := captureViews i
      let s := s.emit (.glUniformMatrix4fv view_location 1 GL_FALSE currentView)
      let s := s.emit (.glFramebufferTexture2D GL_FRAMEBUFFER GL_COLOR_ATTACHMENT0
        (GL_TEXTURE_CUBE_MAP_POSITIVE_X + i) s.self.prefilterMap mip)
      let s := s.emit (.glClear (GL_COLOR_BUFFER_BIT ||| GL_DEPTH_BUFFER_BIT))
      let s := s.emit (.glBindVertexArray s.self.skyboxVAO)
      let s := s.emit (.glDrawArrays GL_TRIANGLES 0 36)
      s.emit (.glBindVertexArray 0)) s) s
  s.emit (.glBindFramebuffer GL_FRAMEBUFFER 0)

/-- The array `quadVertices` of `setupBRDF`: position and texture coordinate of
the four corners. -/
def quadVertices : List ℚ :=
  [ -1,  1, 0, 0, 1,
    -1, -1, 0, 0, 0,
     1,  1, 0, 1, 1,
     1, -1, 0, 1, 0 ]

/-- The size in bytes of a `float` and of an `int`. -/
def sizeof_float : Nat := 4
def sizeof_int : Nat := 4

/-- The method `GLWidget::setupBRDF`. -/
def setupBRDF (s : World) : World :=
  let s := s.gen .glGenTextures (fun w n => { w with brdfLUTTexture := n })
  let s := s.emit (.glBindTexture GL_TEXTURE_2D s.self.brdfLUTTexture)
  let s := s.emit (.glTexImage2D GL_TEXTURE_2D 0 GL_RG16F 512 512 0 GL_RG GL_FLOAT .null)
  let s := s.emit (.glTexParameteri GL_TEXTURE_2D GL_TEXTURE_WRAP_S GL_CLAMP_TO_EDGE)
  let s := s.emit (.glTexParameteri GL_TEXTURE_2D GL_TEXTURE_WRAP_T GL_CLAMP_TO_EDGE)
  let s := s.emit (.glTexParameteri GL_TEXTURE_2D GL_TEXTURE_MIN_FILTER GL_LINEAR)
  let s := s.emit (.glTexParameteri GL_TEXTURE_2D GL_TEXTURE_MAG_FILTER GL_LINEAR)
  let s := s.emit (.glBindFramebuffer GL_FRAMEBUFFER s.self.captureFBO)
  let s := s.emit (.glBindRenderbuffer GL_RENDERBUFFER s.self.captureRBO)
  let s := s.emit (.glRenderbufferStorage GL_RENDERBUFFER GL_DEPTH_COMPONENT24 512 512)
  let s := s.emit (.glFramebufferTexture2D GL_FRAMEBUFFER GL_COLOR_ATTACHMENT0 GL_TEXTURE_2D
    s.self.brdfLUTTexture 0)
  let s := s.emit (.glViewport 0 0 512 512)
  let s := s.emit (.bind .brdf_program_)
  let s := s.emit (.glClear (GL_COLOR_BUFFER_BIT ||| GL_DEPTH_BUFFER_BIT))
  let quadVAO : GLuint := 0
  let r : GLuint × World :=
    if quadVAO = 0 then
      let r := s.genLocal .glGenVertexArrays
      let quadVAO := r.1
      let r := r.2.genLocal .glGenBuffers
      let quadVBO := r.1
      let s := r.2
      let s := s.emit (.glBindVertexArray quadVAO)
      let s := s.emit (.glBindBuffer GL_ARRAY_BUFFER quadVBO)
      let s := s.emit (.glBufferData GL_ARRAY_BUFFER (quadVertices.length * sizeof_float)
        (.floats quadVertices) GL_STATIC_DRAW)
      let s := s.emit (.glEnableVertexAttribArray 0)
      let s := s.emit (.glVertexAttribPointer 0 3 GL_FLOAT GL_FALSE (5 * sizeof_float) 0)
      let s := s.emit (.glEnableVertexAttribArray 1)
      let s := s.emit (.glVertexAttribPointer 1 2 GL_FLOAT GL_FALSE (5 * sizeof_float)
        (3 * sizeof_float))
      (quadVAO, s)
    else (quadVAO, s)
  let quadVAO := r.1
  let s := r.2
  let s := s.emit (.glBindVertexArray quadVAO)
  let s := s.emit (.glDrawArrays GL_TRIANGLE_STRIP 0 4)
  let s := s.emit (.glBindVertexArray 0)
  s.emit (.glBindFramebuffer GL_FRAMEBUFFER 0)

/-- The method `GLWidget::loadCubemapFileHDR`: the returned flag and the world
after the call. -/
def loadCubemapFileHDR (env : Env) (path : String) (s : World) : Bool × World :=
  let s := setupFramebuffer s
  let s := loadHDRenvMap env path s
  let s := setupEnvMap env s
  let s := setupIrrMap env s
  let s := setupPrefilterMap env s
  let s := setupBRDF s
  (true, s)

/-! ## Models -/

/-- The text after the last `.` of a file name, or the whole name when it has
none: `file.substr(file.find_last_of(".") + 1)`. -/
def fileType (file : String) : String :=
  String.mk ((file.data.reverse.takeWhile (fun c => c != '.')).reverse)

/-- The method `GLWidget::LoadModel`. -/
def LoadModel (env : Env) (filename : String) (s : World) : Bool × World :=
  let file := filename
  let type := fileType file
  let mesh : Option TriangleMesh := if type = "ply" then env.ReadFromPly file else none
  match mesh with
  | some mesh =>
    let s := { s with self := { s.self with mesh_ := some mesh } }
    let s := { s with self := { s.self with
      camera_ := env.UpdateModel s.self.camera_ mesh.min_ mesh.max_ } }
    let s := s.gen .glGenVertexArrays (fun w n => { w with modelVAO := n })
    let s := s.gen .glGenBuffers (fun w n => { w with modelVBO := n })
    let s := s.gen .glGenBuffers (fun w n => { w with modelEBO := n })
    let s := s.emit (.glBindVertexArray s.self.modelVAO)
    let s := s.emit (.glBindBuffer GL_ARRAY_BUFFER s.self.modelVBO)
    let s := s.emit (.glBufferData GL_ARRAY_BUFFER (mesh.buffer_.length * sizeof_float)
      (.floats mesh.buffer_) GL_STATIC_DRAW)
    let s := s.emit (.glEnableVertexAttribArray 0)
    let s := s.emit (.glVertexAttribPointer 0 3 GL_FLOAT GL_FALSE (6 * sizeof_float) 0)
    let s := s.emit (.glEnableVertexAttribArray 1)
    let s := s.emit (.glVertexAttribPointer 1 3 GL_FLOAT GL_FALSE (6 * sizeof_float)
      (3 * sizeof_float))
    let s := s.emit (.glBindBuffer GL_ELEMENT_ARRAY_BUFFER s.self.modelEBO)
    let s := s.emit (.glBufferData GL_ELEMENT_ARRAY_BUFFER (mesh.faces_.length * sizeof_int)
      (.ints mesh.faces_) GL_STATIC_DRAW)
    (true, s)
  | none => (false, s)

/-! ## Initialisation -/

/-- The array `skyboxVertices` of `initializeGL`: 36 positions. -/
def skyboxVertices : List ℚ :=
  [ -1,  1, -1,   -1, -1, -1,    1, -1, -1,    1, -1, -1,    1,  1, -1,   -1,  1, -1,
    -1, -1,  1,   -1, -1, -1,   -1,  1, -1,   -1,  1, -1,   -1,  1,  1,   -1, -1,  1,
     1, -1, -1,    1, -1,  1,    1,  1,  1,    1,  1,  1,    1,  1, -1,    1, -1, -1,
    -1, -1,  1,   -1,  1,  1,    1,  1,  1,    1,  1,  1,    1, -1,  1,   -1, -1,  1,
    -1,  1, -1,    1,  1, -1,    1,  1,  1,    1,  1,  1,   -1,  1,  1,   -1,  1, -1,
    -1, -1, -1,   -1, -1,  1,    1, -1, -1,    1, -1, -1,   -1, -1,  1,    1, -1,  1 ]

/-- The statement `res = res && LoadProgram(vertex, fragment, member.get())` of
`initializeGL`: the program is loaded only when `res` is still true. -/
def andLoadProgram (env : Env) (vertex fragment : String)
    (get : GLWidget → QOpenGLShaderProgram)
    (set : GLWidget → QOpenGLShaderProgram → GLWidget) (r : Bool × GLWidget) :
    Bool × GLWidget :=
  if r.1 then
    let l := LoadProgram env vertex fragment (get r.2)
    (l.1, set r.2 l.2)
  else (false, r.2)

/-- The part of `initializeGL` that creates and loads the seven programs: the
final value of `res` and the widget holding the programs. -/
def loadPrograms (env : Env) (w : GLWidget) : Bool × GLWidget :=
  let w := { w with
    reflection_program_ := QOpenGLShaderProgram.new,
    brdf_program_ := QOpenGLShaderProgram.new,
    sky_program_ := QOpenGLShaderProgram.new,
    equirect_to_cubemap_program_ := QOpenGLShaderProgram.new,
    irradiance_program_ := QOpenGLShaderProgram.new,
    pbr_program_ := QOpenGLShaderProgram.new,
    prefilter_program_ := QOpenGLShaderProgram.new }
  let r : Bool × GLWidget := (true, w)
  let r := andLoadProgram env kReflectionVertexShaderFile kReflectionFragmentShaderFile
    (fun w => w.reflection_program_) (fun w p => { w with reflection_program_ := p }) r
  let r := andLoadProgram env kBRDFVertexShaderFile kBRDFFragmentShaderFile
    (fun w => w.brdf_program_) (fun w p => { w with brdf_program_ := p }) r
  let r := andLoadProgram env kSkyVertexShaderFile kSkyFragmentShaderFile
    (fun w => w.sky_program_) (fun w p => { w with sky_program_ := p }) r
  let r := andLoadProgram env kCubemapVertexShaderFile kEquiToCubeFragmentShaderFile
    (fun w => w.equirect_to_cubemap_program_)
    (fun w p => { w with equirect_to_cubemap_program_ := p }) r
  let r := andLoadProgram env kCubemapVertexShaderFile kIrradianceFragmentShaderFile
    (fun w => w.irradiance_program_) (fun w p => { w with irradiance_program_ := p }) r
  let r := andLoadProgram env kPBRVertexShaderFile kPBRFragmentShaderFile
    (fun w => w.pbr_program_) (fun w p => { w with pbr_program_ := p }) r
  andLoadProgram env kCubemapVertexShaderFile kPrefilterFragmentShaderFile
    (fun w => w.prefilter_program_) (fun w p => { w with prefilter_program_ := p }) r

/-- The method `GLWidget::initializeGL`; `none` is the process leaving through
`exit(0)`. -/
def initializeGL (env : Env) (s : World) : Option World :=
  let s := { s with self := { s.self with metalnessParameter := 0 } }
  let s := { s with self := { s.self with roughnessParameter := 0 } }
  let s := s.emit (.glEnable GL_NORMALIZE)
  let s := s.emit (.glEnable GL_CULL_FACE)
  let s := s.emit (.glCullFace GL_BACK)
  let s := s.emit (.glEnable GL_DEPTH_TEST)
  let s := s.gen .glGenTextures (fun w n => { w with specular_map_ := n })
  let s := s.gen .glGenTextures (fun w n => { w with diffuse_map_ := n })
  let r := loadPrograms env s.self
  let res := r.1
  let s := { s with self := r.2 }
  if !res then none
  else
    let s := s.gen .glGenVertexArrays (fun w n => { w with skyboxVAO := n })
    let s := s.gen .glGenBuffers (fun w n => { w with skyboxVBO := n })
    let s := s.emit (.glBindVertexArray s.self.skyboxVAO)
    let s := s.emit (.glBindBuffer GL_ARRAY_BUFFER s.self.skyboxVBO)
    let s := s.emit (.glBufferData GL_ARRAY_BUFFER (skyboxVertices.length * sizeof_float)
      (.floats skyboxVertices) GL_STATIC_DRAW)
    let s := s.emit (.glEnableVertexAttribArray 0)
    let s := s.emit (.glVertexAttribPointer 0 3 GL_FLOAT GL_FALSE (3 * sizeof_float) 0)
    let s := { s with self := { s.self with initialized_ := true } }
    let s := s.emit (.glDepthFunc GL_LEQUAL)
    let s := s.emit (.glEnable GL_TEXTURE_CUBE_MAP_SEAMLESS)
    let s := (loadCubemapFileHDR env "../textures/Tropical_Beach/Tropical_Beach_3k.hdr" s).2
    let s := (LoadModel env "../models/sphere.ply" s).2
    some s

/-! ## Drawing a frame -/

/-- The method `inverse()` of Eigen on a fixed-size matrix: the adjugate divided
by the determinant. -/
def inverse {n : Nat} (m : Matrix (Fin n) (Fin n) ℚ) : Matrix (Fin n) (Fin n) ℚ :=
  (m.det)⁻¹ • m.adjugate

/-- The vector `cameraPos` of `paintGL`: row 3 of the transposed inverse of the
view matrix. -/
def cameraPosOf (view : Mat4) : Vec3 :=
  let t2 := (inverse view).transpose
  ![t2 3 0, t2 3 1, t2 3 2]

/-- The matrix `normal` of `paintGL`: the transposed inverse of the upper-left
3x3 block of `t = view * model`. -/
def normalOf (view model : Mat4) : Mat3 :=
  let t := view * model
  let normal : Mat3 := Matrix.of fun i j => t (Fin.castLE (by decide) i) (Fin.castLE (by decide) j)
  (inverse normal).transpose

/-- The block of `paintGL` guarded by `mesh_ != nullptr`: the pass that draws
the mesh. -/
def paintMesh (env : Env) (mesh : TriangleMesh) (projection view model : Mat4) (normal : Mat3)
    (cameraPos : Vec3) (s : World) : World :=
  let p : ProgramId := if s.self.reflection_ then .reflection_program_ else .pbr_program_
  let s := s.emit (.bind p)
  let projection_location := env.uniformLocation p "projection"
  let view_location := env.uniformLocation p "view"
  let model_location := env.uniformLocation p "model"
  let normal_matrix_location := env.uniformLocation p "normal_matrix"
  let env_map_location :=
    if s.self.reflection_ then env.uniformLocation .reflection_program_ "reflection_map"
    else env.uniformLocation .pbr_program_ "irradiance_map"
  let camera_position_location := env.uniformLocation p "camera_pos"
  let prefilter_map_location := env.uniformLocation .pbr_program_ "prefilter_map"
  let brdf_lut_location := env.uniformLocation .pbr_program_ "brdfLUT"
  let s := s.emit (.glUniformMatrix4fv projection_location 1 GL_FALSE projection)
  let s := s.emit (.glUniformMatrix4fv view_location 1 GL_FALSE view)
  let s := s.emit (.glUniformMatrix4fv model_location 1 GL_FALSE model)
  let s := s.emit (.glUniformMatrix3fv normal_matrix_location 1 GL_FALSE normal)
  let s := s.emit (.glUniform3fv camera_position_location 1 cameraPos)
  let s :=
    if s.self.reflection_ then
      let s := s.emit (.glActiveTexture GL_TEXTURE0)
      s.emit (.glBindTexture GL_TEXTURE_CUBE_MAP s.self.envCubemap)
    else
      let s := s.emit (.glUniform1i env_map_location 0)
      let s := s.emit (.glUniform1i prefilter_map_location 1)
      let s := s.emit (.glUniform1i brdf_lut_location 2)
      let s := s.emit (.glActiveTexture GL_TEXTURE0)
      let s := s.emit (.glBindTexture GL_TEXTURE_CUBE_MAP s.self.irradianceMap)
      let s := s.emit (.glActiveTexture GL_TEXTURE1)
      let s := s.emit (.glBindTexture GL_TEXTURE_CUBE_MAP s.self.prefilterMap)
      let s := s.emit (.glActiveTexture GL_TEXTURE2)
      let s := s.emit (.glBindTexture GL_TEXTURE_2D s.self.brdfLUTTexture)
      let roughness_location := env.uniformLocation .pbr_program_ "roughness"
      let metalness_location := env.uniformLocation .pbr_program_ "metalness"
      let s := s.emit (.glUniform1f roughness_location s.self.roughnessParameter)
      s.emit (.glUniform1f metalness_location s.self.metalnessParameter)
  let s := s.emit (.glBindVertexArray s.self.modelVAO)
  let s := s.emit (.glDrawElements GL_TRIANGLES mesh.faces_.length GL_UNSIGNED_INT 0)
  s.emit (.glBindVertexArray 0)

/-- The end of `paintGL`, after the mesh block: the pass that draws the bounding
cube showing the environment. -/
def paintSky (env : Env) (projection view : Mat4) (normal : Mat3) (s : World) : World :=
  let model := s.self.camera_.SetIdentity
  let s := s.emit (.bind .sky_program_)
  let projection_location := env.uniformLocation .sky_program_ "projection"
  let view_location := env.uniformLocation .sky_program_ "view"
  let model_location := env.uniformLocation .sky_program_ "model"
  let normal_matrix_location := env.uniformLocation .sky_program_ "normal_matrix"
  let specular_map_location := env.uniformLocation .sky_program_ "specular_map"
  let s := s.emit (.glUniformMatrix4fv projection_location 1 GL_FALSE projection)
  let s := s.emit (.glUniformMatrix4fv view_location 1 GL_FALSE view)
  let s := s.emit (.glUniformMatrix4fv model_location 1 GL_FALSE model)
  let s := s.emit (.glUniformMatrix3fv normal_matrix_location 1 GL_FALSE normal)
  let s := s.emit (.glActiveTexture GL_TEXTURE0)
  let s := s.emit (.glBindTexture GL_TEXTURE_CUBE_MAP s.self.envCubemap)
  let s := s.emit (.glUniform1i specular_map_location 0)
  let s := s.emit (.glBindVertexArray s.self.skyboxVAO)
  let s := s.emit (.glDrawArrays GL_TRIANGLES 0 36)
  s.emit (.glBindVertexArray 0)

/-- The method `GLWidget::paintGL`. -/
def paintGL (env : Env) (s : World) : World :=
  let s := s.emit (.glClearColor 1 1 1 1)
  let s := s.emit (.glClear (GL_COLOR_BUFFER_BIT ||| GL_DEPTH_BUFFER_BIT))
  if s.self.initialized_ then
    let s := s.emits s.self.camera_.SetViewport
    let projection := s.self.camera_.SetProjection
    let view := s.self.camera_.SetView
    let model := s.self.camera_.SetModel
    let cameraPos := cameraPosOf view
    let normal := normalOf view model
    let s :=
      match s.self.mesh_ with
      | some mesh => paintMesh env mesh projection view model normal cameraPos s
      | none => s
    paintSky env projection view normal s
  else s

/-- The slot `GLWidget::SetReflection` (the repaint it requests is `paintGL`). -/
def SetReflection (set : Bool) (w : GLWidget) : GLWidget := { w with reflection_ := set }

/-- The slot `GLWidget::SetBRDF`. -/
def SetBRDF (set : Bool) (w : GLWidget) : GLWidget := { w with reflection_ := !set }

/-- The slot `GLWidget::SetRoughness`. -/
def SetRoughness (r : ℚ) (w : GLWidget) : GLWidget := { w with roughnessParameter := r }

/-- The slot `GLWidget::SetMetalness`. -/
def SetMetalness (m : ℚ) (w : GLWidget) : GLWidget := { w with metalnessParameter := m }

/-! ## The OpenGL state the calls act on

The part of the OpenGL state machine that the widget's calls read and write,
after the OpenGL specification: texture bindings per unit, the framebuffer and
renderbuffer bindings, attachments, storage sizes, viewport, program and vertex
array. -/

/-- A texture image attached to a framebuffer by `glFramebufferTexture2D`. -/
structure Attachment where
  textarget : GLenum
  texture : GLuint
  level : Nat
  deriving DecidableEq, Repr

structure GLState where
  /-- The active texture unit. -/
  activeTexture : GLenum
  /-- The texture bound to `GL_TEXTURE_2D` of each unit. -/
  texture2D : GLenum → GLuint
  /-- The texture bound to `GL_TEXTURE_CUBE_MAP` of each unit. -/
  textureCube : GLenum → GLuint
  /-- The framebuffer bound to `GL_FRAMEBUFFER`; 0 is the window. -/
  framebuffer : GLuint
  /-- The renderbuffer bound to `GL_RENDERBUFFER`. -/
  renderbuffer : GLuint
  /-- The size of the storage of each renderbuffer. -/
  storage : GLuint → Option (Nat × Nat)
  /-- The image attached to `GL_COLOR_ATTACHMENT0` of each framebuffer. -/
  color : GLuint → Option Attachment
  /-- The renderbuffer attached to `GL_DEPTH_ATTACHMENT` of each framebuffer. -/
  depth : GLuint → Option GLuint
  /-- The size of each image (texture, image target, level) that has storage. -/
  imageSize : GLuint → GLenum → Nat → Option (Int × Int)
  viewport : Int × Int × Nat × Nat
  program : Option ProgramId
  vertexArray : GLuint

/-- The state of a fresh context: unit 0 active, nothing bound, no storage. -/
def GLState.initial : GLState :=
  { activeTexture := GL_TEXTURE0, texture2D := fun _ => 0, textureCube := fun _ => 0,
    framebuffer := 0, renderbuffer := 0, storage := fun _ => none, color := fun _ => none,
    depth := fun _ => none, imageSize := fun _ _ _ => none, viewport := (0, 0, 0, 0),
    program := none, vertexArray := 0 }

/-- Whether an image target is one of the six cube faces. -/
def isCubeFace (target : GLenum) : Bool :=
  decide (GL_TEXTURE_CUBE_MAP_POSITIVE_X ≤ target) && decide (target ≤ GL_TEXTURE_CUBE_MAP_NEGATIVE_Z)

/-- The texture an image call on `target` acts on: the one bound to the target
(for a cube face, to `GL_TEXTURE_CUBE_MAP`) of the active unit. -/
def GLState.boundTo (g : GLState) (target : GLenum) : GLuint :=
  if target = GL_TEXTURE_2D then g.texture2D g.activeTexture
  else if target = GL_TEXTURE_CUBE_MAP || isCubeFace target then g.textureCube g.activeTexture
  else 0

/-- The size of level `level` of a mip chain whose base level has size `base`:
each level halves the one before, rounding down, and no level is smaller than
one texel; levels past the 1x1 level do not exist. -/
def mipLevelSize (base : Int × Int) (level : Nat) : Option (Int × Int) :=
  if 0 < base.1 ∧ 0 < base.2 ∧ 2 ^ level ≤ max base.1.toNat base.2.toNat then
    some (max 1 (base.1 / 2 ^ level), max 1 (base.2 / 2 ^ level))
  else none

/-- The effect of one call on the GL state. -/
def GLState.exec (g : GLState) : GLCall → GLState
  | .glActiveTexture unit => { g with activeTexture := unit }
  | .glBindTexture target texture =>
    if target = GL_TEXTURE_2D then
      { g with texture2D := fun u => if u = g.activeTexture then texture else g.texture2D u }
    else if target = GL_TEXTURE_CUBE_MAP then
      { g with textureCube := fun u => if u = g.activeTexture then texture else g.textureCube u }
    else g
  | .glTexImage2D target level _ width height _ _ _ _ =>
    { g with imageSize := fun t i l =>
        if t = g.boundTo target ∧ i = target ∧ l = level then some (width, height)
        else g.imageSize t i l }
  | .glGenerateMipmap target =>
    { g with imageSize := fun t i l =>
        if t = g.boundTo target ∧ 0 < l ∧
            (if target = GL_TEXTURE_CUBE_MAP then isCubeFace i = true else i = target) then
          (g.imageSize t i 0).bind (fun base => mipLevelSize base l)
        else g.imageSize t i l }
  | .glBindFramebuffer _ framebuffer => { g with framebuffer := framebuffer }
  | .glBindRenderbuffer _ renderbuffer => { g with renderbuffer := renderbuffer }
  | .glRenderbufferStorage _ _ width height =>
    { g with storage := fun r =>
        if r = g.renderbuffer then some (width, height) else g.storage r }
  | .glFramebufferRenderbuffer _ attachment _ renderbuffer =>
    if attachment = GL_DEPTH_ATTACHMENT then
      { g with depth := fun f =>
          if f = g.framebuffer then (if renderbuffer = 0 then none else some renderbuffer)
          else g.depth f }
    else g
  | .glFramebufferTexture2D _ attachment textarget texture level =>
    if attachment = GL_COLOR_ATTACHMENT0 then
      { g with color := fun f =>
          if f = g.framebuffer then
            (if texture = 0 then none else some { textarget, texture, level })
          else g.color f }
    else g
  | .glViewport x y width height => { g with viewport := (x, y, width, height) }
  | .bind program => { g with program := some program }
  | .glBindVertexArray array => { g with vertexArray := array }
  | _ => g

/-- What a draw call renders with: the call and the GL state it meets. -/
structure Draw where
  call : GLCall
  /-- The bound framebuffer. -/
  framebuffer : GLuint
  /-- Its colour attachment, and the size of the attached image. -/
  color : Option Attachment
  colorSize : Option (Int × Int)
  /-- The size of the storage of its depth attachment. -/
  depthSize : Option (Nat × Nat)
  viewport : Int × Int × Nat × Nat
  program : Option ProgramId
  vertexArray : GLuint
  activeTexture : GLenum
  /-- The 2D and the cube-map texture bound to unit 0, the unit every sampler of
  the pipeline is set to. -/
  texture2D : GLuint
  textureCube : GLuint
  deriving DecidableEq

/-- The record of a draw call issued in state `g`. -/
def GLState.draw (g : GLState) (call : GLCall) : Draw :=
  { call := call
    framebuffer := g.framebuffer
    color := g.color g.framebuffer
    colorSize := (g.color g.framebuffer).bind (fun a => g.imageSize a.texture a.textarget a.level)
    depthSize := (g.depth g.framebuffer).bind g.storage
    viewport := g.viewport
    program := g.program
    vertexArray := g.vertexArray
    activeTexture := g.activeTexture
    texture2D := g.texture2D GL_TEXTURE0
    textureCube := g.textureCube GL_TEXTURE0 }

def isDraw : GLCall → Bool
  | .glDrawArrays _ _ _ => true
  | .glDrawElements _ _ _ _ => true
  | _ => false

/-- The draws of a list of calls executed from state `g`, in order, each with
the state it meets. -/
def draws (g : GLState) : List GLCall → List Draw
  | [] => []
  | c :: cs => (if isDraw c then [g.draw c] else []) ++ draws (g.exec c) cs

/-- The GL state after a list of calls. -/
def GLState.run (g : GLState) (cs : List GLCall) : GLState := cs.foldl GLState.exec g

/-- The calls a step issues: those of the world after it that were not there
before it. -/
def issued (before after : World) : List GLCall := after.calls.drop before.calls.length

/-! ## Descriptions used by the statements -/

/-- The six face files of a cube-map directory with the face each goes to, in
the order right, left, top, bottom, back, front. -/
def cubeFaces : List (String × GLenum) :=
  [ ("/right.png", GL_TEXTURE_CUBE_MAP_POSITIVE_X),
    ("/left.png", GL_TEXTURE_CUBE_MAP_NEGATIVE_X),
    ("/top.png", GL_TEXTURE_CUBE_MAP_POSITIVE_Y),
    ("/bottom.png", GL_TEXTURE_CUBE_MAP_NEGATIVE_Y),
    ("/back.png", GL_TEXTURE_CUBE_MAP_POSITIVE_Z),
    ("/front.png", GL_TEXTURE_CUBE_MAP_NEGATIVE_Z) ]

/-- Whether the face file of directory `dir` loads. -/
def faceLoads (env : Env) (dir : String) (f : String × GLenum) : Bool :=
  (env.qimageLoad (dir ++ f.1)).isSome

/-- The upload of a face file that loads: its pixels, as BGRA bytes, to level 0
of the face. -/
def faceUpload (env : Env) (dir : String) (f : String × GLenum) : Option GLCall :=
  (env.qimageLoad (dir ++ f.1)).map fun image =>
    .glTexImage2D f.2 0 GL_RGBA image.width image.height 0 GL_BGRA GL_UNSIGNED_BYTE
      (.bytes image.bits)

/-- The five sampler parameters `LoadCubeMap` sets on the cube map. -/
def cubeSamplerParameters : List GLCall :=
  [ .glTexParameteri GL_TEXTURE_CUBE_MAP GL_TEXTURE_MAG_FILTER GL_LINEAR,
    .glTexParameteri GL_TEXTURE_CUBE_MAP GL_TEXTURE_MIN_FILTER GL_LINEAR,
    .glTexParameteri GL_TEXTURE_CUBE_MAP GL_TEXTURE_WRAP_S GL_CLAMP_TO_EDGE,
    .glTexParameteri GL_TEXTURE_CUBE_MAP GL_TEXTURE_WRAP_T GL_CLAMP_TO_EDGE,
    .glTexParameteri GL_TEXTURE_CUBE_MAP GL_TEXTURE_WRAP_R GL_CLAMP_TO_EDGE ]

/-- The float buffers handed to `glTexImage2D`, each with the width, height and
pixel format the call declares for it. -/
def floatUploads : List GLCall → List (Int × Int × GLenum × List ℚ)
  | [] => []
  | .glTexImage2D _ _ _ width height _ format _ (.floats data) :: cs =>
    (width, height, format, data) :: floatUploads cs
  | _ :: cs => floatUploads cs

/-- The texture a draw renders into, when a texture image is attached. -/
def Draw.target (d : Draw) : Option GLuint := d.color.map (fun a => a.texture)

/-- The draws of `cs`, from a fresh context, that render into texture `t`. -/
def drawsInto (t : GLuint) (cs : List GLCall) : List Draw :=
  (draws GLState.initial cs).filter (fun d => d.target = some t)

/-! ## Sample inputs -/

def sampleCamera : Camera :=
  { SetViewport := [.glViewport 0 0 800 600], SetProjection := 1, SetView := 1,
    SetModel := 1, SetIdentity := 1 }

/-- A widget as its constructor leaves it (`initialized_` false, `reflection_`
true, `fresnel_` 0.2), the members the constructor does not set being 0. -/
def sampleWidget : GLWidget :=
  { reflection_program_ := .new, brdf_program_ := .new, sky_program_ := .new,
    equirect_to_cubemap_program_ := .new, irradiance_program_ := .new,
    prefilter_program_ := .new, pbr_program_ := .new, camera_ := sampleCamera,
    mesh_ := none, diffuse_map_ := 0, specular_map_ := 0, modelVAO := 0, modelVBO := 0,
    modelEBO := 0, skyboxVAO := 0, skyboxVBO := 0, captureFBO := 0, captureRBO := 0,
    hdrTexture := 0, envCubemap := 0, irradianceMap := 0, prefilterMap := 0,
    brdfLUTTexture := 0, metalnessParameter := 0, roughnessParameter := 0,
    initialized_ := false, width_ := 0, height_ := 0, reflection_ := true,
    fresnel_ := ![1 / 5, 1 / 5, 1 / 5] }

/-- A world in which no GL call has been issued and the first unused name is 1. -/
def sampleWorld : World := { self := sampleWidget, nextName := 1, calls := [] }

/-- A 2x1 panorama with three channels. -/
def samplePanorama : StbiImage :=
  { width := 2, height := 1, nrComponents := 3, data := [1, 1, 1, 1 / 2, 1 / 2, 1 / 2] }

/-- A 1x1 image with a single (grey) channel. -/
def greyImage : StbiImage := { width := 1, height := 1, nrComponents := 1, data := [1 / 2] }

/-- An environment in which every file exists, but no shader source compiles
and no program links, no uniform is found, `pano.hdr` decodes to
`samplePanorama`, `grey.png` decodes to `greyImage`, and no other image or
model loads. -/
def sampleEnv : Env :=
  { fileContents := fun _ => some "not a shader"
    compiles := fun _ _ => false
    links := fun _ => false
    uniformLocation := fun _ _ => -1
    qimageLoad := fun _ => none
    stbi_loadf := fun path =>
      if path = "pano.hdr" then some samplePanorama
      else if path = "grey.png" then some greyImage else none
    ReadFromPly := fun _ => none
    UpdateModel := fun c _ _ => c }

/-- The world after a first, successful run of the pipeline on `pano.hdr`. -/
def litWorld : World := (loadCubemapFileHDR sampleEnv "pano.hdr" sampleWorld).2

/-- A mesh of one triangle. -/
def sampleMesh : TriangleMesh :=
  { vertices_ := [0, 0, 0, 1, 0, 0, 0, 1, 0], faces_ := [0, 1, 2],
    buffer_ := [0, 0, 0, 0, 0, 1, 1, 0, 0, 0, 0, 1, 0, 1, 0, 0, 0, 1],
    min_ := ![0, 0, 0], max_ := ![1, 1, 0] }

/-- The world `litWorld` with the widget initialised and a mesh loaded. -/
def readyWorld : World :=
  { litWorld with self := { litWorld.self with mesh_ := some sampleMesh, initialized_ := true } }

/-! ## The calls of each stage, written out

Each list is the sequence of calls one method issues, as a function of the
names it reads from the widget and of the names the driver hands out. -/

/-- The draw of the 36-vertex cube. -/
def cubeDraw : GLCall := .glDrawArrays GL_TRIANGLES 0 36

/-- The six `glTexImage2D` calls that give each face of the bound cube map a
level 0 of `size` x `size` half-float RGB texels, without data. -/
def allocCubeCalls (size : Int) : List GLCall :=
  (List.range 6).map fun i =>
    .glTexImage2D (GL_TEXTURE_CUBE_MAP_POSITIVE_X + i) 0 GL_RGB16F size size 0 GL_RGB GL_FLOAT
      .null

/-- The calls that render face `i`: the view of the face, the face of `texture`
at `level` as colour attachment, the clear, and the draw of the cube. -/
def captureFaceCalls (view_location : GLint) (texture : GLuint) (level : Nat)
    (skyboxVAO : GLuint) (i : Nat) : List GLCall :=
  [ .glUniformMatrix4fv view_location 1 GL_FALSE (captureViews i),
    .glFramebufferTexture2D GL_FRAMEBUFFER GL_COLOR_ATTACHMENT0
      (GL_TEXTURE_CUBE_MAP_POSITIVE_X + i) texture level,
    .glClear (GL_COLOR_BUFFER_BIT ||| GL_DEPTH_BUFFER_BIT),
    .glBindVertexArray skyboxVAO,
    cubeDraw,
    .glBindVertexArray 0 ]

/-- The calls of `setupFramebuffer`. -/
def framebufferCalls (captureFBO captureRBO : GLuint) : List GLCall :=
  [ .glGenFramebuffers captureFBO,
    .glGenRenderbuffers captureRBO,
    .glBindFramebuffer GL_FRAMEBUFFER captureFBO,
    .glBindRenderbuffer GL_RENDERBUFFER captureRBO,
    .glRenderbufferStorage GL_RENDERBUFFER GL_DEPTH_COMPONENT24 512 512,
    .glFramebufferRenderbuffer GL_FRAMEBUFFER GL_DEPTH_ATTACHMENT GL_RENDERBUFFER captureRBO ]

/-- The calls of `loadHDRenvMap` when the panorama decodes to `img`. -/
def hdrCalls (img : StbiImage) (hdrTexture : GLuint) : List GLCall :=
  [ .glGenTextures hdrTexture,
    .glBindTexture GL_TEXTURE_2D hdrTexture,
    .glTexImage2D GL_TEXTURE_2D 0 GL_RGB16F img.width img.height 0 GL_RGB GL_FLOAT
      (.floats img.data),
    .glTexParameteri GL_TEXTURE_2D GL_TEXTURE_WRAP_S GL_CLAMP_TO_EDGE,
    .glTexParameteri GL_TEXTURE_2D GL_TEXTURE_WRAP_T GL_CLAMP_TO_EDGE,
    .glTexParameteri GL_TEXTURE_2D GL_TEXTURE_MIN_FILTER GL_LINEAR,
    .glTexParameteri GL_TEXTURE_2D GL_TEXTURE_MAG_FILTER GL_LINEAR ]

/-- The calls of `setupEnvMap`. -/
def envMapCalls (env : Env) (captureFBO hdrTexture skyboxVAO envCubemap : GLuint) :
    List GLCall :=
  [ .glGenTextures envCubemap, .glBindTexture GL_TEXTURE_CUBE_MAP envCubemap ] ++
  allocCubeCalls 512 ++
  [ .glTexParameteri GL_TEXTURE_CUBE_MAP GL_TEXTURE_WRAP_S GL_CLAMP_TO_EDGE,
    .glTexParameteri GL_TEXTURE_CUBE_MAP GL_TEXTURE_WRAP_T GL_CLAMP_TO_EDGE,
    .glTexParameteri GL_TEXTURE_CUBE_MAP GL_TEXTURE_WRAP_R GL_CLAMP_TO_EDGE,
    .glTexParameteri GL_TEXTURE_CUBE_MAP GL_TEXTURE_MIN_FILTER GL_LINEAR_MIPMAP_LINEAR,
    .glTexParameteri GL_TEXTURE_CUBE_MAP GL_TEXTURE_MAG_FILTER GL_LINEAR,
    .bind .equirect_to_cubemap_program_,
    .glUniform1i (env.uniformLocation .equirect_to_cubemap_program_ "equirectangularMap") 0,
    .glUniformMatrix4fv (env.uniformLocation .equirect_to_cubemap_program_ "projection") 1
      GL_FALSE captureProjection,
    .glActiveTexture GL_TEXTURE0,
    .glBindTexture GL_TEXTURE_2D hdrTexture,
    .glViewport 0 0 512 512,
    .glBindFramebuffer GL_FRAMEBUFFER captureFBO ] ++
  (List.range 6).flatMap
    (captureFaceCalls (env.uniformLocation .equirect_to_cubemap_program_ "view") envCubemap 0
      skyboxVAO) ++
  [ .glBindFramebuffer GL_FRAMEBUFFER 0 ]

/-- The calls of `setupIrrMap`. -/
def irrMapCalls (env : Env) (captureFBO captureRBO envCubemap skyboxVAO irradianceMap : GLuint) :
    List GLCall :=
  [ .glBindTexture GL_TEXTURE_CUBE_MAP envCubemap,
    .glGenerateMipmap GL_TEXTURE_CUBE_MAP,
    .glGenTextures irradianceMap,
    .glBindTexture GL_TEXTURE_CUBE_MAP irradianceMap ] ++
  allocCubeCalls 32 ++
  [ .glTexParameteri GL_TEXTURE_CUBE_MAP GL_TEXTURE_WRAP_S GL_CLAMP_TO_EDGE,
    .glTexParameteri GL_TEXTURE_CUBE_MAP GL_TEXTURE_WRAP_T GL_CLAMP_TO_EDGE,
    .glTexParameteri GL_TEXTURE_CUBE_MAP GL_TEXTURE_WRAP_R GL_CLAMP_TO_EDGE,
    .glTexParameteri GL_TEXTURE_CUBE_MAP GL_TEXTURE_MIN_FILTER GL_LINEAR,
    .glTexParameteri GL_TEXTURE_CUBE_MAP GL_TEXTURE_MAG_FILTER GL_LINEAR,
    .glBindFramebuffer GL_FRAMEBUFFER captureFBO,
    .glBindRenderbuffer GL_RENDERBUFFER captureRBO,
    .glRenderbufferStorage GL_RENDERBUFFER GL_DEPTH_COMPONENT24 32 32,
    .glTexParameteri GL_TEXTURE_CUBE_MAP GL_TEXTURE_MAG_FILTER GL_LINEAR,
    .bind .irradiance_program_,
    .glUniform1i (env.uniformLocation .irradiance_program_ "environmentMap") 0,
    .glUniformMatrix4fv (env.uniformLocation .irradiance_program_ "projection") 1 GL_FALSE
      captureProjection,
    .glActiveTexture GL_TEXTURE0,
    .glBindTexture GL_TEXTURE_CUBE_MAP envCubemap,
    .glViewport 0 0 32 32,
    .glBindFramebuffer GL_FRAMEBUFFER captureFBO ] ++
  (List.range 6).flatMap
    (captureFaceCalls (env.uniformLocation .irradiance_program_ "view") irradianceMap 0
      skyboxVAO) ++
  [ .glBindFramebuffer GL_FRAMEBUFFER 0 ]

/-- The calls of one pass of the mip loop of `setupPrefilterMap`: the depth
storage and the viewport of the mip, its roughness, and its six faces. -/
def prefilterMipCalls (env : Env) (captureRBO skyboxVAO prefilterMap : GLuint) (mip : Nat) :
    List GLCall :=
  [ .glBindRenderbuffer GL_RENDERBUFFER captureRBO,
    .glRenderbufferStorage GL_RENDERBUFFER GL_DEPTH_COMPONENT24 (mipSize mip) (mipSize mip),
    .glViewport 0 0 (mipSize mip) (mipSize mip),
    .glUniform1f (env.uniformLocation .prefilter_program_ "roughness")
      ((mip : ℚ) / ((maxMipLevels - 1 : Nat) : ℚ)) ] ++
  (List.range 6).flatMap
    (captureFaceCalls (env.uniformLocation .prefilter_program_ "view") prefilterMap mip
      skyboxVAO)

/-- The calls of `setupPrefilterMap`. -/
def prefilterCalls (env : Env) (captureFBO captureRBO envCubemap skyboxVAO prefilterMap : GLuint) :
    List GLCall :=
  [ .glGenTextures prefilterMap, .glBindTexture GL_TEXTURE_CUBE_MAP prefilterMap ] ++
  allocCubeCalls 128 ++
  [ .glTexParameteri GL_TEXTURE_CUBE_MAP GL_TEXTURE_WRAP_S GL_CLAMP_TO_EDGE,
    .glTexParameteri GL_TEXTURE_CUBE_MAP GL_TEXTURE_WRAP_T GL_CLAMP_TO_EDGE,
    .glTexParameteri GL_TEXTURE_CUBE_MAP GL_TEXTURE_WRAP_R GL_CLAMP_TO_EDGE,
    .glTexParameteri GL_TEXTURE_CUBE_MAP GL_TEXTURE_MIN_FILTER GL_LINEAR_MIPMAP_LINEAR,
    .glTexParameteri GL_TEXTURE_CUBE_MAP GL_TEXTURE_MAG_FILTER GL_LINEAR,
    .glGenerateMipmap GL_TEXTURE_CUBE_MAP,
    .bind .prefilter_program_,
    .glUniform1i (env.uniformLocation .prefilter_program_ "environmentMap") 0,
    .glUniformMatrix4fv (env.uniformLocation .prefilter_program_ "projection") 1 GL_FALSE
      captureProjection,
    .glActiveTexture GL_TEXTURE0,
    .glBindTexture GL_TEXTURE_CUBE_MAP envCubemap,
    .glBindFramebuffer GL_FRAMEBUFFER captureFBO ] ++
  (List.range maxMipLevels).flatMap (prefilterMipCalls env captureRBO skyboxVAO prefilterMap) ++
  [ .glBindFramebuffer GL_FRAMEBUFFER 0 ]

/-- The calls of `setupBRDF`: a 512x512 two-channel texture as colour
attachment, 512x512 depth storage and viewport, the BRDF program, and one draw
of a four-vertex triangle strip. -/
def brdfCalls (captureFBO captureRBO brdfLUTTexture quadVAO quadVBO : GLuint) : List GLCall :=
  [ .glGenTextures brdfLUTTexture,
    .glBindTexture GL_TEXTURE_2D brdfLUTTexture,
    .glTexImage2D GL_TEXTURE_2D 0 GL_RG16F 512 512 0 GL_RG GL_FLOAT .null,
    .glTexParameteri GL_TEXTURE_2D GL_TEXTURE_WRAP_S GL_CLAMP_TO_EDGE,
    .glTexParameteri GL_TEXTURE_2D GL_TEXTURE_WRAP_T GL_CLAMP_TO_EDGE,
    .glTexParameteri GL_TEXTURE_2D GL_TEXTURE_MIN_FILTER GL_LINEAR,
    .glTexParameteri GL_TEXTURE_2D GL_TEXTURE_MAG_FILTER GL_LINEAR,
    .glBindFramebuffer GL_FRAMEBUFFER captureFBO,
    .glBindRenderbuffer GL_RENDERBUFFER captureRBO,
    .glRenderbufferStorage GL_RENDERBUFFER GL_DEPTH_COMPONENT24 512 512,
    .glFramebufferTexture2D GL_FRAMEBUFFER GL_COLOR_ATTACHMENT0 GL_TEXTURE_2D brdfLUTTexture 0,
    .glViewport 0 0 512 512,
    .bind .brdf_program_,
    .glClear (GL_COLOR_BUFFER_BIT ||| GL_DEPTH_BUFFER_BIT),
    .glGenVertexArrays quadVAO,
    .glGenBuffers quadVBO,
    .glBindVertexArray quadVAO,
    .glBindBuffer GL_ARRAY_BUFFER quadVBO,
    .glBufferData GL_ARRAY_BUFFER 80 (.floats quadVertices) GL_STATIC_DRAW,
    .glEnableVertexAttribArray 0,
    .glVertexAttribPointer 0 3 GL_FLOAT GL_FALSE 20 0,
    .glEnableVertexAttribArray 1,
    .glVertexAttribPointer 1 2 GL_FLOAT GL_FALSE 20 12,
    .glBindVertexArray quadVAO,
    .glDrawArrays GL_TRIANGLE_STRIP 0 4,
    .glBindVertexArray 0,
    .glBindFramebuffer GL_FRAMEBUFFER 0 ]

/-- The calls of a run of `loadCubemapFileHDR` whose panorama decodes to `img`,
when the driver hands out the names `name 0`, ..., `name 8`: they go, in this
order, to the framebuffer, the renderbuffer, the panorama, the environment,
irradiance and prefilter cube maps, the BRDF table, the quad array and the quad
buffer. -/
def pipelineCalls (env : Env) (img : StbiImage) (skyboxVAO : GLuint) (name : Nat → GLuint) :
    List GLCall :=
  framebufferCalls (name 0) (name 1) ++ hdrCalls img (name 2) ++
  envMapCalls env (name 0) (name 2) skyboxVAO (name 3) ++
  irrMapCalls env (name 0) (name 1) (name 3) skyboxVAO (name 4) ++
  prefilterCalls env (name 0) (name 1) (name 3) skyboxVAO (name 5) ++
  brdfCalls (name 0) (name 1) (name 6) (name 7) (name 8)

/-- The world in which `setupBRDF` starts during `loadCubemapFileHDR`. -/
def beforeBRDF (env : Env) (path : String) (s : World) : World :=
  setupPrefilterMap env (setupIrrMap env (setupEnvMap env
    (loadHDRenvMap env path (setupFramebuffer s))))

/-- The location argument of a `glUniform*` call. -/
def uniformLocationOf : GLCall → Option GLint
  | .glUniform1i l _ => some l
  | .glUniform1f l _ => some l
  | .glUniform3fv l _ _ => some l
  | .glUniformMatrix3fv l _ _ _ => some l
  | .glUniformMatrix4fv l _ _ _ => some l
  | _ => none

/-- A matrix or vector handed to a `glUniform*` call. -/
inductive Uploaded where
  | mat4 (m : Mat4)
  | mat3 (m : Mat3)
  | vec3 (v : Vec3)

/-- The matrices and vectors a list of calls uploads, in order. -/
def uploadedValues : List GLCall → List Uploaded
  | [] => []
  | .glUniformMatrix4fv _ _ _ m :: cs => .mat4 m :: uploadedValues cs
  | .glUniformMatrix3fv _ _ _ m :: cs => .mat3 m :: uploadedValues cs
  | .glUniform3fv _ _ v :: cs => .vec3 v :: uploadedValues cs
  | _ :: cs => uploadedValues cs

/-- The textures a list of calls binds, each with its target, in order. -/
def textureBinds : List GLCall → List (GLenum × GLuint)
  | [] => []
  | .glBindTexture target texture :: cs => (target, texture) :: textureBinds cs
  | _ :: cs => textureBinds cs

/-- The calls of the mesh block of `paintGL`, in the mode of widget `w`. -/
def meshPassCalls (env : Env) (w : GLWidget) (mesh : TriangleMesh) (projection view model : Mat4)
    (normal : Mat3) (cameraPos : Vec3) : List GLCall :=
  if w.reflection_ then
    [ .bind .reflection_program_,
      .glUniformMatrix4fv (env.uniformLocation .reflection_program_ "projection") 1 GL_FALSE
        projection,
      .glUniformMatrix4fv (env.uniformLocation .reflection_program_ "view") 1 GL_FALSE view,
      .glUniformMatrix4fv (env.uniformLocation .reflection_program_ "model") 1 GL_FALSE model,
      .glUniformMatrix3fv (env.uniformLocation .reflection_program_ "normal_matrix") 1 GL_FALSE
        normal,
      .glUniform3fv (env.uniformLocation .reflection_program_ "camera_pos") 1 cameraPos,
      .glActiveTexture GL_TEXTURE0,
      .glBindTexture GL_TEXTURE_CUBE_MAP w.envCubemap,
      .glBindVertexArray w.modelVAO,
      .glDrawElements GL_TRIANGLES mesh.faces_.length GL_UNSIGNED_INT 0,
      .glBindVertexArray 0 ]
  else
    [ .bind .pbr_program_,
      .glUniformMatrix4fv (env.uniformLocation .pbr_program_ "projection") 1 GL_FALSE projection,
      .glUniformMatrix4fv (env.uniformLocation .pbr_program_ "view") 1 GL_FALSE view,
      .glUniformMatrix4fv (env.uniformLocation .pbr_program_ "model") 1 GL_FALSE model,
      .glUniformMatrix3fv (env.uniformLocation .pbr_program_ "normal_matrix") 1 GL_FALSE normal,
      .glUniform3fv (env.uniformLocation .pbr_program_ "camera_pos") 1 cameraPos,
      .glUniform1i (env.uniformLocation .pbr_program_ "irradiance_map") 0,
      .glUniform1i (env.uniformLocation .pbr_program_ "prefilter_map") 1,
      .glUniform1i (env.uniformLocation .pbr_program_ "brdfLUT") 2,
      .glActiveTexture GL_TEXTURE0,
      .glBindTexture GL_TEXTURE_CUBE_MAP w.irradianceMap,
      .glActiveTexture GL_TEXTURE1,
      .glBindTexture GL_TEXTURE_CUBE_MAP w.prefilterMap,
      .glActiveTexture GL_TEXTURE2,
      .glBindTexture GL_TEXTURE_2D w.brdfLUTTexture,
      .glUniform1f (env.uniformLocation .pbr_program_ "roughness") w.roughnessParameter,
      .glUniform1f (env.uniformLocation .pbr_program_ "metalness") w.metalnessParameter,
      .glBindVertexArray w.modelVAO,
      .glDrawElements GL_TRIANGLES mesh.faces_.length GL_UNSIGNED_INT 0,
      .glBindVertexArray 0 ]

/-- The calls of the sky block of `paintGL`. -/
def skyPassCalls (env : Env) (w : GLWidget) (projection view : Mat4) (normal : Mat3) :
    List GLCall :=
  [ .bind .sky_program_,
    .glUniformMatrix4fv (env.uniformLocation .sky_program_ "projection") 1 GL_FALSE projection,
    .glUniformMatrix4fv (env.uniformLocation .sky_program_ "view") 1 GL_FALSE view,
    .glUniformMatrix4fv (env.uniformLocation .sky_program_ "model") 1 GL_FALSE
      w.camera_.SetIdentity,
    .glUniformMatrix3fv (env.uniformLocation .sky_program_ "normal_matrix") 1 GL_FALSE normal,
    .glActiveTexture GL_TEXTURE0,
    .glBindTexture GL_TEXTURE_CUBE_MAP w.envCubemap,
    .glUniform1i (env.uniformLocation .sky_program_ "specular_map") 0,
    .glBindVertexArray w.skyboxVAO,
    cubeDraw,
    .glBindVertexArray 0 ]

/-- The calls of `paintGL` on widget `w`. -/
def paintCalls (env : Env) (w : GLWidget) : List GLCall :=
  [ .glClearColor 1 1 1 1, .glClear (GL_COLOR_BUFFER_BIT ||| GL_DEPTH_BUFFER_BIT) ] ++
  if w.initialized_ then
    w.camera_.SetViewport ++
    (match w.mesh_ with
      | some mesh =>
        meshPassCalls env w mesh w.camera_.SetProjection w.camera_.SetView w.camera_.SetModel
          (normalOf w.camera_.SetView w.camera_.SetModel) (cameraPosOf w.camera_.SetView)
      | none => []) ++
    skyPassCalls env w w.camera_.SetProjection w.camera_.SetView
      (normalOf w.camera_.SetView w.camera_.SetModel)
  else []

/-- The draws of `paintGL`: none before initialisation; after it, those among
the camera's viewport calls, the draw of the mesh when one is loaded, and the
draw of the cube. -/
def paintDraws (w : GLWidget) : List GLCall :=
  if w.initialized_ then
    w.camera_.SetViewport.filter isDraw ++
    (match w.mesh_ with
      | some mesh => [.glDrawElements GL_TRIANGLES mesh.faces_.length GL_UNSIGNED_INT 0]
      | none => []) ++ [cubeDraw]
  else []

/-- The record of the draw of face `i` of `texture` at `level`, of side `size`,
in a cube stage. -/
def captureDraw (captureFBO skyboxVAO : GLuint) (program : ProgramId) (texture : GLuint)
    (level size : Nat) (texture2D textureCube : GLuint) (i : Nat) : Draw :=
  { call := cubeDraw
    framebuffer := captureFBO
    color := some { textarget := GL_TEXTURE_CUBE_MAP_POSITIVE_X + i, texture, level }
    colorSize := some ((size : Int), (size : Int))
    depthSize := some (size, size)
    viewport := (0, 0, size, size)
    program := some program
    vertexArray := skyboxVAO
    activeTexture := GL_TEXTURE0
    texture2D := texture2D
    textureCube := textureCube }

/-- The record of the draw of `setupBRDF`. -/
def brdfDraw (captureFBO brdfLUTTexture quadVAO envCubemap : GLuint) : Draw :=
  { call := .glDrawArrays GL_TRIANGLE_STRIP 0 4
    framebuffer := captureFBO
    color := some { textarget := GL_TEXTURE_2D, texture := brdfLUTTexture, level := 0 }
    colorSize := some (512, 512)
    depthSize := some (512, 512)
    viewport := (0, 0, 512, 512)
    program := some .brdf_program_
    vertexArray := quadVAO
    activeTexture := GL_TEXTURE0
    texture2D := brdfLUTTexture
    textureCube := envCubemap }

/-- The 43 draws of a run of the pipeline, with the names as in
`pipelineCalls`. -/
def pipelineDraws (skyboxVAO : GLuint) (name : Nat → GLuint) : List Draw :=
  (List.range 6).map
    (captureDraw (name 0) skyboxVAO .equirect_to_cubemap_program_ (name 3) 0 512 (name 2)
      (name 3)) ++
  (List.range 6).map
    (captureDraw (name 0) skyboxVAO .irradiance_program_ (name 4) 0 32 (name 2) (name 3)) ++
  (List.range maxMipLevels).flatMap (fun mip =>
    (List.range 6).map
      (captureDraw (name 0) skyboxVAO .prefilter_program_ (name 5) mip (128 >>> mip) (name 2)
        (name 3))) ++
  [brdfDraw (name 0) (name 6) (name 7) (name 3)]

/-- The locations the mesh block of `paintGL` passes to its `glUniform*` calls,
in order: those it looked up in the program of the mode. -/
def meshUniformLocations (env : Env) (reflection : Bool) : List GLint :=
  if reflection then
    ["projection", "view", "model", "normal_matrix", "camera_pos"].map
      (env.uniformLocation .reflection_program_)
  else
    ["projection", "view", "model", "normal_matrix", "camera_pos", "irradiance_map",
      "prefilter_map", "brdfLUT", "roughness", "metalness"].map
      (env.uniformLocation .pbr_program_)

/-- The locations the sky block of `paintGL` passes to its `glUniform*` calls. -/
def skyUniformLocations (env : Env) : List GLint :=
  ["projection", "view", "model", "normal_matrix", "specular_map"].map
    (env.uniformLocation .sky_program_)

/-- The world with the widget changed by `f`. -/
def World.withSelf (s : World) (f : GLWidget → GLWidget) : World := { s with self := f s.self }

/-- The calls `setupBRDF` issues during `loadCubemapFileHDR`. -/
def brdfStage (env : Env) (path : String) (s : World) : List GLCall :=
  issued (beforeBRDF env path s) (setupBRDF (beforeBRDF env path s))

/-- The number of names handed out during `loadCubemapFileHDR` before
`setupBRDF` starts: five, and one more when the panorama decodes. -/
def namesBeforeBRDF (env : Env) (path : String) : Nat :=
  5 + (if (env.stbi_loadf path).isSome then 1 else 0)

/-- A call with every GL object name in it replaced by its image under `ρ`. -/
def GLCall.rename (ρ : GLuint → GLuint) : GLCall → GLCall
  | .glGenTextures n => .glGenTextures (ρ n)
  | .glGenFramebuffers n => .glGenFramebuffers (ρ n)
  | .glGenRenderbuffers n => .glGenRenderbuffers (ρ n)
  | .glGenVertexArrays n => .glGenVertexArrays (ρ n)
  | .glGenBuffers n => .glGenBuffers (ρ n)
  | .glBindTexture t n => .glBindTexture t (ρ n)
  | .glBindFramebuffer t n => .glBindFramebuffer t (ρ n)
  | .glBindRenderbuffer t n => .glBindRenderbuffer t (ρ n)
  | .glFramebufferRenderbuffer t a r n => .glFramebufferRenderbuffer t a r (ρ n)
  | .glFramebufferTexture2D t a x n l => .glFramebufferTexture2D t a x (ρ n) l
  | .glBindVertexArray n => .glBindVertexArray (ρ n)
  | .glBindBuffer t n => .glBindBuffer t (ρ n)
  | c => c

/-- A draw record with every GL object name in it replaced by its image under
`ρ`. -/
def Draw.rename (ρ : GLuint → GLuint) (d : Draw) : Draw :=
  { d with
    call := d.call.rename ρ
    framebuffer := ρ d.framebuffer
    color := d.color.map (fun a => { a with texture := ρ a.texture })
    vertexArray := ρ d.vertexArray
    texture2D := ρ d.texture2D
    textureCube := ρ d.textureCube }

/-- The renaming that leaves the names below `base` alone and moves every other
name up by `by`. -/
def shiftNames (base by_ h : Nat) : Nat := if h < base then h else h + by_

/-! ## Descriptions used by the statements on models, matrices and stage order -/

/-- The text after the last `.` of a file name, when the name has a `.`. -/
def extensionOf (file : String) : Option String :=
  if '.' ∈ file.data then
    some (String.mk ((file.data.reverse.takeWhile (fun c => c != '.')).reverse))
  else none

/-- The environment `sampleEnv` in which the PLY reader reads `sampleMesh` from
the files `ply` and `model.ply` and fails on every other file. -/
def plyEnv : Env :=
  { sampleEnv with
    ReadFromPly := fun file =>
      if file = "ply" ∨ file = "model.ply" then some sampleMesh else none }

/-- The upper-left 3x3 block of a 4x4 matrix. -/
def upperLeft (m : Mat4) : Mat3 :=
  Matrix.of fun i j => m (Fin.castLE (by decide) i) (Fin.castLE (by decide) j)

/-- The six cube axes in face order: +X, -X, +Y, -Y, +Z, -Z. -/
def cubeAxis (i : Nat) : Vec3 :=
  match i with
  | 0 => ![1, 0, 0]
  | 1 => ![-1, 0, 0]
  | 2 => ![0, 1, 0]
  | 3 => ![0, -1, 0]
  | 4 => ![0, 0, 1]
  | _ => ![0, 0, -1]

/-- A view matrix that moves the eye to (3, 4, 5), and its inverse. -/
def sampleView : Mat4 := !![1, 0, 0, -3; 0, 1, 0, -4; 0, 0, 1, -5; 0, 0, 0, 1]

def sampleViewInverse : Mat4 := !![1, 0, 0, 3; 0, 1, 0, 4; 0, 0, 1, 5; 0, 0, 0, 1]

/-- A model matrix that scales the second axis by 2. -/
def sampleModel : Mat4 := !![1, 0, 0, 0; 0, 2, 0, 0; 0, 0, 1, 0; 0, 0, 0, 1]

/-- What the statements on the order within a stage observe of a call. -/
inductive StageEvent where
  /-- A `glRenderbufferStorage` call: the depth storage is given this size. -/
  | resize (width height : Nat)
  /-- A `glViewport` call. -/
  | viewport (x y : Int) (width height : Nat)
  /-- A `glUniform1f` call. -/
  | float (location : GLint) (value : ℚ)
  /-- A `glUniformMatrix4fv` call. -/
  | matrix (location : GLint) (value : Mat4)
  /-- A `glFramebufferTexture2D` call on `GL_COLOR_ATTACHMENT0`. -/
  | attach (textarget : GLenum) (texture : GLuint) (level : Nat)
  /-- A `glClear` call. -/
  | clear (mask : Nat)
  /-- A `glGenerateMipmap` call. -/
  | generateMipmap (target : GLenum)
  /-- A draw call. -/
  | draw

/-- The event of a call, for the calls that are one. -/
def stageEvent : GLCall → Option StageEvent
  | .glRenderbufferStorage _ _ width height => some (.resize width height)
  | .glViewport x y width height => some (.viewport x y width height)
  | .glUniform1f location v0 => some (.float location v0)
  | .glUniformMatrix4fv location _ _ value => some (.matrix location value)
  | .glFramebufferTexture2D _ attachment textarget texture level =>
    if attachment = GL_COLOR_ATTACHMENT0 then some (.attach textarget texture level) else none
  | .glClear mask => some (.clear mask)
  | .glGenerateMipmap target => some (.generateMipmap target)
  | .glDrawArrays _ _ _ => some .draw
  | .glDrawElements _ _ _ _ => some .draw
  | _ => none

/-- The events of a list of calls, in order. -/
def stageEvents (cs : List GLCall) : List StageEvent := cs.filterMap stageEvent

def StageEvent.isFloat : StageEvent → Bool
  | .float _ _ => true
  | _ => false

def StageEvent.isResize : StageEvent → Bool
  | .resize _ _ => true
  | _ => false

def StageEvent.isViewport : StageEvent → Bool
  | .viewport _ _ _ _ => true
  | _ => false

def StageEvent.isMatrix : StageEvent → Bool
  | .matrix _ _ => true
  | _ => false

def StageEvent.isAttach : StageEvent → Bool
  | .attach _ _ _ => true
  | _ => false

def StageEvent.isClear : StageEvent → Bool
  | .clear _ => true
  | _ => false

def StageEvent.isDraw : StageEvent → Bool
  | .draw => true
  | _ => false

/-- The events of rendering face `i` of `texture` at `level` in a cube stage:
the view of the face is uploaded, the face is attached, colour and depth are
cleared, and the cube is drawn. -/
def faceEvents (view_location : GLint) (texture : GLuint) (level : Nat) (i : Nat) :
    List StageEvent :=
  [ .matrix view_location (captureViews i),
    .attach (GL_TEXTURE_CUBE_MAP_POSITIVE_X + i) texture level,
    .clear (GL_COLOR_BUFFER_BIT ||| GL_DEPTH_BUFFER_BIT),
    .draw ]

/-- The vectors a list of calls uploads with `glUniform3fv`, in order. -/
def vec3Uploads : List GLCall → List Vec3
  | [] => []
  | .glUniform3fv _ _ v :: cs => v :: vec3Uploads cs
  | _ :: cs => vec3Uploads cs

/-- The matrices a list of calls uploads with `glUniformMatrix3fv`, in order. -/
def mat3Uploads : List GLCall → List Mat3
  | [] => []
  | .glUniformMatrix3fv _ _ _ m :: cs => m :: mat3Uploads cs
  | _ :: cs => mat3Uploads cs

/-- The slot-like change of the camera's model matrix. -/
def withModel (model : Mat4) (w : GLWidget) : GLWidget :=
  { w with camera_ := { w.camera_ with SetModel := model } }

/-- The world `readyWorld` seen through `sampleView`, with the model
`sampleModel`. -/
def eyeWorld : World :=
  readyWorld.withSelf fun w =>
    { w with camera_ := { w.camera_ with SetView := sampleView, SetModel := sampleModel } }

/-- What a draw renders into: the bound framebuffer, its colour attachment
with the size of the attached image, the size of the storage of its depth
attachment, and the viewport. -/
structure Target where
  framebuffer : GLuint
  color : Option Attachment
  colorSize : Option (Int × Int)
  depthSize : Option (Nat × Nat)
  viewport : Int × Int × Nat × Nat
  deriving DecidableEq

/-- The render target of a draw. -/
def Draw.renderTarget (d : Draw) : Target :=
  { framebuffer := d.framebuffer, color := d.color, colorSize := d.colorSize,
    depthSize := d.depthSize, viewport := d.viewport }

/-- A draw, with the target it renders into, or the generation of the mip chain
of a texture. -/
inductive Moment where
  | draw (target : Target)
  | generateMipmap (texture : GLuint)
  deriving DecidableEq

/-- The draws and the mip generations of a list of calls executed from state
`g`, in order: each draw with the target it meets, each `glGenerateMipmap` with
the texture bound to its target when it is called. -/
def moments (g : GLState) : List GLCall → List Moment
  | [] => []
  | .glGenerateMipmap target :: cs =>
    .generateMipmap (g.boundTo target) :: moments (g.exec (.glGenerateMipmap target)) cs
  | c :: cs => (if isDraw c then [.draw (g.draw c).renderTarget] else []) ++ moments (g.exec c) cs

/-- The target of a draw into image `textarget` of `texture` at `level`, when
that image, the depth storage and the viewport are all `size` x `size`. -/
def captureTarget (captureFBO : GLuint) (textarget : GLenum) (texture : GLuint)
    (level size : Nat) : Target :=
  { framebuffer := captureFBO
    color := some { textarget, texture, level }
    colorSize := some ((size : Int), (size : Int))
    depthSize := some (size, size)
    viewport := (0, 0, size, size) }

/-- The six draws of a cube stage, one into each face of `texture` at `level`,
in the order of the faces. -/
def faceMoments (captureFBO texture : GLuint) (level size : Nat) : List Moment :=
  (List.range 6).map fun i =>
    .draw (captureTarget captureFBO (GL_TEXTURE_CUBE_MAP_POSITIVE_X + i) texture level size)

/-- The draws and mip generations of a run of the pipeline on the capture
framebuffer and the four textures it creates. -/
def pipelineMoments (captureFBO envCubemap irradianceMap prefilterMap brdfLUTTexture : GLuint) :
    List Moment :=
  faceMoments captureFBO envCubemap 0 512 ++
  [.generateMipmap envCubemap] ++
  faceMoments captureFBO irradianceMap 0 32 ++
  [.generateMipmap prefilterMap] ++
  (List.range maxMipLevels).flatMap (fun mip =>
    faceMoments captureFBO prefilterMap mip (128 >>> mip)) ++
  [.draw (captureTarget captureFBO GL_TEXTURE_2D brdfLUTTexture 0 512)]

/-- The target of a moment that is a draw. -/
def Moment.target : Moment → Option Target
  | .draw t => some t
  | .generateMipmap _ => none

/-- Whether a moment is a draw whose colour attachment is an image of
`texture`. -/
def Moment.drawsInto (texture : GLuint) : Moment → Bool
  | .draw t => t.color.any (fun a => a.texture == texture)
  | .generateMipmap _ => false

/-- The targets of the 43 draws of a run of the pipeline, in order: the six
faces of the environment cube map at 512, the six of the irradiance map at 32,
the six of each level `mip` of the prefilter map at `128 >>> mip`, and the BRDF
table at 512. -/
def pipelineTargets (captureFBO envCubemap irradianceMap prefilterMap brdfLUTTexture : GLuint) :
    List Target :=
  (List.range 6).map
    (fun i => captureTarget captureFBO (GL_TEXTURE_CUBE_MAP_POSITIVE_X + i) envCubemap 0 512) ++
  (List.range 6).map
    (fun i => captureTarget captureFBO (GL_TEXTURE_CUBE_MAP_POSITIVE_X + i) irradianceMap 0 32) ++
  (List.range maxMipLevels).flatMap (fun mip =>
    (List.range 6).map (fun i =>
      captureTarget captureFBO (GL_TEXTURE_CUBE_MAP_POSITIVE_X + i) prefilterMap mip
        (128 >>> mip))) ++
  [captureTarget captureFBO GL_TEXTURE_2D brdfLUTTexture 0 512]

/-! ## Unfolding lemmas -/

theorem forLoop_six (body : Nat → World → World) (s : World) :
    forLoop 6 body s = body 5 (body 4 (body 3 (body 2 (body 1 (body 0 s))))) := rfl

theorem forLoop_five (body : Nat → World → World) (s : World) :
    forLoop 5 body s = body 4 (body 3 (body 2 (body 1 (body 0 s)))) := rfl

theorem range_six : List.range 6 = [0, 1, 2, 3, 4, 5] := rfl

theorem range_five : List.range 5 = [0, 1, 2, 3, 4] := rfl

theorem issued_eq (s t : World) (cs : List GLCall) (h : t.calls = s.calls ++ cs) :
    issued s t = cs := by
  simp [issued, h]

/-! ## The calls of each method -/

theorem setupFramebuffer_eq (s : World) :
    setupFramebuffer s =
      { self := { s.self with captureFBO := s.nextName, captureRBO := s.nextName + 1 }
        nextName := s.nextName + 2
        calls := s.calls ++ framebufferCalls s.nextName (s.nextName + 1) } := by
  simp only [setupFramebuffer, World.emit, World.gen, List.append_assoc]
  rfl

theorem loadHDRenvMap_some (env : Env) (path : String) (s : World) (img : StbiImage)
    (h : env.stbi_loadf path = some img) :
    loadHDRenvMap env path s =
      { self := { s.self with hdrTexture := s.nextName }
        nextName := s.nextName + 1
        calls := s.calls ++ hdrCalls img s.nextName } := by
  simp only [loadHDRenvMap, h, World.emit, World.gen, List.append_assoc]
  rfl

theorem loadHDRenvMap_none (env : Env) (path : String) (s : World)
    (h : env.stbi_loadf path = none) : loadHDRenvMap env path s = s := by
  simp only [loadHDRenvMap, h]

theorem setupEnvMap_eq (env : Env) (s : World) :
    setupEnvMap env s =
      { self := { s.self with envCubemap := s.nextName }
        nextName := s.nextName + 1
        calls := s.calls ++
          envMapCalls env s.self.captureFBO s.self.hdrTexture s.self.skyboxVAO s.nextName } := by
  simp only [setupEnvMap, forLoop_six, World.emit, World.gen, List.append_assoc]
  rfl

theorem setupIrrMap_eq (env : Env) (s : World) :
    setupIrrMap env s =
      { self := { s.self with irradianceMap := s.nextName }
        nextName := s.nextName + 1
        calls := s.calls ++ irrMapCalls env s.self.captureFBO s.self.captureRBO
          s.self.envCubemap s.self.skyboxVAO s.nextName } := by
  simp only [setupIrrMap, forLoop_six, World.emit, World.gen, List.append_assoc]
  rfl

set_option maxRecDepth 20000 in
theorem setupPrefilterMap_eq (env : Env) (s : World) :
    setupPrefilterMap env s =
      { self := { s.self with prefilterMap := s.nextName }
        nextName := s.nextName + 1
        calls := s.calls ++ prefilterCalls env s.self.captureFBO s.self.captureRBO
          s.self.envCubemap s.self.skyboxVAO s.nextName } := by
  simp only [setupPrefilterMap, forLoop_six, maxMipLevels, forLoop_five, World.emit, World.gen,
    List.append_assoc]
  rfl

theorem setupBRDF_eq (s : World) :
    setupBRDF s =
      { self := { s.self with brdfLUTTexture := s.nextName }
        nextName := s.nextName + 3
        calls := s.calls ++ brdfCalls s.self.captureFBO s.self.captureRBO s.nextName
          (s.nextName + 1) (s.nextName + 2) } := by
  simp only [setupBRDF, World.emit, World.gen, World.genLocal, List.append_assoc, if_true]
  set_option maxRecDepth 10000 in rfl

theorem loadCubemapFileHDR_some (env : Env) (path : String) (s : World) (img : StbiImage)
    (h : env.stbi_loadf path = some img) :
    (loadCubemapFileHDR env path s).2 =
      { self := { s.self with
          captureFBO := s.nextName, captureRBO := s.nextName + 1, hdrTexture := s.nextName + 2,
          envCubemap := s.nextName + 3, irradianceMap := s.nextName + 4,
          prefilterMap := s.nextName + 5, brdfLUTTexture := s.nextName + 6 }
        nextName := s.nextName + 9
        calls := s.calls ++ pipelineCalls env img s.self.skyboxVAO (fun k => s.nextName + k) } := by
  simp only [loadCubemapFileHDR]
  rw [setupFramebuffer_eq, loadHDRenvMap_some _ _ _ _ h, setupEnvMap_eq, setupIrrMap_eq,
    setupPrefilterMap_eq, setupBRDF_eq]
  simp only [pipelineCalls, List.append_assoc, Nat.add_assoc, Nat.reduceAdd, Nat.add_zero]

theorem paintMesh_eq (env : Env) (mesh : TriangleMesh) (projection view model : Mat4)
    (normal : Mat3) (cameraPos : Vec3) (s : World) :
    paintMesh env mesh projection view model normal cameraPos s =
      { s with calls := s.calls ++
          meshPassCalls env s.self mesh projection view model normal cameraPos } := by
  cases h : s.self.reflection_ <;>
    simp [paintMesh, meshPassCalls, World.emit, h]

theorem paintSky_eq (env : Env) (projection view : Mat4) (normal : Mat3) (s : World) :
    paintSky env projection view normal s =
      { s with calls := s.calls ++ skyPassCalls env s.self projection view normal } := by
  simp [paintSky, skyPassCalls, World.emit, cubeDraw]

theorem paintGL_eq (env : Env) (s : World) :
    paintGL env s = { s with calls := s.calls ++ paintCalls env s.self } := by
  cases hi : s.self.initialized_ <;> cases hm : s.self.mesh_ <;>
    simp [paintGL, paintCalls, paintMesh_eq, paintSky_eq, World.emit, World.emits, hi, hm]

theorem uploadedValues_append (a b : List GLCall) :
    uploadedValues (a ++ b) = uploadedValues a ++ uploadedValues b := by
  induction a with
  | nil => rfl
  | cons c cs ih => cases c <;> simp [uploadedValues, ih]

theorem beforeBRDF_names (env : Env) (path : String) (s : World) :
    (beforeBRDF env path s).self.captureFBO = s.nextName ∧
    (beforeBRDF env path s).self.captureRBO = s.nextName + 1 ∧
    (beforeBRDF env path s).nextName = s.nextName + namesBeforeBRDF env path := by
  unfold beforeBRDF namesBeforeBRDF
  rw [setupFramebuffer_eq]
  cases h : env.stbi_loadf path
  · rw [loadHDRenvMap_none _ _ _ h, setupEnvMap_eq, setupIrrMap_eq, setupPrefilterMap_eq]
    simp
  · rw [loadHDRenvMap_some _ _ _ _ h, setupEnvMap_eq, setupIrrMap_eq, setupPrefilterMap_eq]
    simp

theorem brdfStage_eq (env : Env) (path : String) (s : World) :
    brdfStage env path s =
      brdfCalls s.nextName (s.nextName + 1) (s.nextName + namesBeforeBRDF env path)
        (s.nextName + namesBeforeBRDF env path + 1) (s.nextName + namesBeforeBRDF env path + 2) := by
  obtain ⟨h1, h2, h3⟩ := beforeBRDF_names env path s
  unfold brdfStage
  rw [issued_eq _ _ _ (by rw [setupBRDF_eq]), h1, h2, h3]

/-! ## The GL state between the stages, and the draws of each stage -/

theorem draws_append (g : GLState) (a b : List GLCall) :
    draws g (a ++ b) = draws g a ++ draws (g.run a) b := by
  induction a generalizing g with
  | nil => rfl
  | cons c cs ih => simp [draws, GLState.run, ih, List.foldl]

theorem run_nil (g : GLState) : g.run [] = g := List.foldl_nil

theorem run_cons (g : GLState) (c : GLCall) (cs : List GLCall) :
    g.run (c :: cs) = (g.exec c).run cs := List.foldl_cons _ _

theorem run_append (g : GLState) (a b : List GLCall) : g.run (a ++ b) = (g.run a).run b := by
  simp [GLState.run, List.foldl_append]

theorem mipSize_eq_floor (mip : Nat) : mipSize mip = ⌊(128 * (1 / 2 : ℚ) ^ mip)⌋.toNat := rfl

theorem mipSize_values :
    mipSize 0 = 128 ∧ mipSize 1 = 64 ∧ mipSize 2 = 32 ∧ mipSize 3 = 16 ∧ mipSize 4 = 8 := by
  refine ⟨?_, ?_, ?_, ?_, ?_⟩ <;> rw [mipSize_eq_floor] <;> norm_num <;> rfl

theorem run_framebufferCalls (fbo rbo : GLuint) (g : GLState) (hr : rbo ≠ 0) :
    (g.run (framebufferCalls fbo rbo)).activeTexture = g.activeTexture ∧
    (g.run (framebufferCalls fbo rbo)).depth fbo = some rbo ∧
    (g.run (framebufferCalls fbo rbo)).storage rbo = some (512, 512) ∧
    draws g (framebufferCalls fbo rbo) = [] := by
  refine ⟨rfl, ?_, ?_, rfl⟩ <;>
  simp [framebufferCalls, run_cons, run_nil, GLState.exec, hr, GL_DEPTH_ATTACHMENT]

theorem run_hdrCalls (img : StbiImage) (hdr : GLuint) (g : GLState)
    (h1 : g.activeTexture = GL_TEXTURE0) :
    (g.run (hdrCalls img hdr)).activeTexture = GL_TEXTURE0 ∧
    (g.run (hdrCalls img hdr)).depth = g.depth ∧
    (g.run (hdrCalls img hdr)).storage = g.storage ∧
    draws g (hdrCalls img hdr) = [] := by
  obtain ⟨a, b, c, d, e, f, g, h, i, j, k, l⟩ := g
  simp only at h1
  subst h1
  exact ⟨rfl, rfl, rfl, rfl⟩

theorem run_envMapCalls (env : Env) (fbo hdr vao envc : GLuint) (g : GLState)
    (h1 : g.activeTexture = GL_TEXTURE0) :
    (g.run (envMapCalls env fbo hdr vao envc)).activeTexture = GL_TEXTURE0 ∧
    (g.run (envMapCalls env fbo hdr vao envc)).depth = g.depth ∧
    (g.run (envMapCalls env fbo hdr vao envc)).texture2D GL_TEXTURE0 = hdr ∧
    (g.run (envMapCalls env fbo hdr vao envc)).textureCube GL_TEXTURE0 = envc := by
  obtain ⟨a, b, c, d, e, f, g, h, i, j, k, l⟩ := g
  simp only at h1
  subst h1
  exact ⟨rfl, rfl, rfl, rfl⟩

theorem run_irrMapCalls (env : Env) (fbo rbo envc vao irr : GLuint) (g : GLState)
    (h1 : g.activeTexture = GL_TEXTURE0) :
    (g.run (irrMapCalls env fbo rbo envc vao irr)).activeTexture = GL_TEXTURE0 ∧
    (g.run (irrMapCalls env fbo rbo envc vao irr)).depth = g.depth ∧
    (g.run (irrMapCalls env fbo rbo envc vao irr)).texture2D = g.texture2D ∧
    (g.run (irrMapCalls env fbo rbo envc vao irr)).textureCube GL_TEXTURE0 = envc := by
  obtain ⟨a, b, c, d, e, f, g, h, i, j, k, l⟩ := g
  simp only at h1
  subst h1
  exact ⟨rfl, rfl, rfl, rfl⟩

theorem run_prefilterCalls (env : Env) (fbo rbo envc vao pre : GLuint) (g : GLState)
    (h1 : g.activeTexture = GL_TEXTURE0) :
    (g.run (prefilterCalls env fbo rbo envc vao pre)).activeTexture = GL_TEXTURE0 ∧
    (g.run (prefilterCalls env fbo rbo envc vao pre)).depth = g.depth ∧
    (g.run (prefilterCalls env fbo rbo envc vao pre)).texture2D = g.texture2D ∧
    (g.run (prefilterCalls env fbo rbo envc vao pre)).textureCube GL_TEXTURE0 = envc := by
  obtain ⟨a, b, c, d, e, f, g, h, i, j, k, l⟩ := g
  simp only at h1
  subst h1
  exact ⟨rfl, rfl, rfl, rfl⟩

theorem run_brdfCalls (fbo rbo lut qa qb : GLuint) (g : GLState) :
    (g.run (brdfCalls fbo rbo lut qa qb)).activeTexture = g.activeTexture :=
  rfl

theorem draws_envMapCalls (env : Env) (fbo rbo hdr vao envc : GLuint) (g : GLState)
    (h1 : g.activeTexture = GL_TEXTURE0) (h2 : g.depth fbo = some rbo)
    (h3 : g.storage rbo = some (512, 512)) (he : envc ≠ 0) :
    draws g (envMapCalls env fbo hdr vao envc) =
      (List.range 6).map
        (captureDraw fbo vao .equirect_to_cubemap_program_ envc 0 512 hdr envc) := by
  simp [envMapCalls, allocCubeCalls, captureFaceCalls, range_six, draws, h1, h2, h3, he,
    GLState.exec, isDraw, cubeDraw, GLState.draw, GLState.boundTo, isCubeFace,
    captureDraw, brdfDraw, mipLevelSize, GL_TEXTURE_2D, GL_TEXTURE_CUBE_MAP,
    GL_TEXTURE_CUBE_MAP_POSITIVE_X, GL_TEXTURE_CUBE_MAP_NEGATIVE_Z, GL_DEPTH_ATTACHMENT,
    GL_COLOR_ATTACHMENT0]

theorem draws_irrMapCalls (env : Env) (fbo rbo hdr envc vao irr : GLuint) (g : GLState)
    (h1 : g.activeTexture = GL_TEXTURE0) (h2 : g.depth fbo = some rbo)
    (h4 : g.texture2D GL_TEXTURE0 = hdr) (hi : irr ≠ 0) :
    draws g (irrMapCalls env fbo rbo envc vao irr) =
      (List.range 6).map (captureDraw fbo vao .irradiance_program_ irr 0 32 hdr envc) := by
  simp [irrMapCalls, allocCubeCalls, captureFaceCalls, range_six, draws, h1, h2, h4, hi,
    GLState.exec, isDraw, cubeDraw, GLState.draw, GLState.boundTo, isCubeFace,
    captureDraw, brdfDraw, mipLevelSize, GL_TEXTURE_2D, GL_TEXTURE_CUBE_MAP,
    GL_TEXTURE_CUBE_MAP_POSITIVE_X, GL_TEXTURE_CUBE_MAP_NEGATIVE_Z, GL_DEPTH_ATTACHMENT,
    GL_COLOR_ATTACHMENT0]

set_option maxRecDepth 100000 in
set_option maxHeartbeats 2000000 in
theorem draws_prefilterCalls (env : Env) (fbo rbo hdr envc vao pre : GLuint) (g : GLState)
    (h1 : g.activeTexture = GL_TEXTURE0) (h2 : g.depth fbo = some rbo)
    (h4 : g.texture2D GL_TEXTURE0 = hdr) (hp : pre ≠ 0) :
    draws g (prefilterCalls env fbo rbo envc vao pre) =
      (List.range maxMipLevels).flatMap (fun mip =>
        (List.range 6).map
          (captureDraw fbo vao .prefilter_program_ pre mip (128 >>> mip) hdr envc)) := by
  simp [prefilterCalls, prefilterMipCalls, allocCubeCalls, captureFaceCalls, range_six,
    range_five, maxMipLevels, mipSize_values, draws, h1, h2, h4, hp,
    GLState.exec, isDraw, cubeDraw, GLState.draw, GLState.boundTo, isCubeFace,
    captureDraw, brdfDraw, mipLevelSize, GL_TEXTURE_2D, GL_TEXTURE_CUBE_MAP,
    GL_TEXTURE_CUBE_MAP_POSITIVE_X, GL_TEXTURE_CUBE_MAP_NEGATIVE_Z, GL_DEPTH_ATTACHMENT,
    GL_COLOR_ATTACHMENT0]

theorem draws_brdfCalls (fbo rbo envc lut qa qb : GLuint) (g : GLState)
    (h1 : g.activeTexture = GL_TEXTURE0) (h2 : g.depth fbo = some rbo)
    (h5 : g.textureCube GL_TEXTURE0 = envc) (hl : lut ≠ 0) :
    draws g (brdfCalls fbo rbo lut qa qb) = [brdfDraw fbo lut qa envc] := by
  simp [brdfCalls, draws, h1, h2, h5, hl,
    GLState.exec, isDraw, cubeDraw, GLState.draw, GLState.boundTo, isCubeFace,
    captureDraw, brdfDraw, mipLevelSize, GL_TEXTURE_2D, GL_TEXTURE_CUBE_MAP,
    GL_TEXTURE_CUBE_MAP_POSITIVE_X, GL_TEXTURE_CUBE_MAP_NEGATIVE_Z, GL_DEPTH_ATTACHMENT,
    GL_COLOR_ATTACHMENT0]

/-- The draws of a run of the pipeline that starts with texture unit 0 active
are those of `pipelineDraws`, whatever else the GL state holds, and the run
leaves unit 0 active. -/
theorem draws_pipelineCalls (env : Env) (img : StbiImage) (vao n : GLuint) (g : GLState)
    (h1 : g.activeTexture = GL_TEXTURE0) :
    draws g (pipelineCalls env img vao (fun k => n + k)) = pipelineDraws vao (fun k => n + k) ∧
    (g.run (pipelineCalls env img vao (fun k => n + k))).activeTexture = GL_TEXTURE0 := by
  obtain ⟨a1, d1, s1, w1⟩ := run_framebufferCalls (n + 0) (n + 1) g (Nat.succ_ne_zero _)
  have a1' := a1.trans h1
  obtain ⟨a2, d2, s2, w2⟩ := run_hdrCalls img (n + 2) _ a1'
  obtain ⟨a3, d3, t3, c3⟩ := run_envMapCalls env (n + 0) (n + 2) vao (n + 3) _ a2
  obtain ⟨a4, d4, t4, c4⟩ := run_irrMapCalls env (n + 0) (n + 1) (n + 3) vao (n + 4) _ a3
  obtain ⟨a5, d5, t5, c5⟩ := run_prefilterCalls env (n + 0) (n + 1) (n + 3) vao (n + 5) _ a4
  have e2 := (congrFun d2 (n + 0)).trans d1
  have e3 := (congrFun d3 (n + 0)).trans e2
  have e4 := (congrFun d4 (n + 0)).trans e3
  have e5 := (congrFun d5 (n + 0)).trans e4
  simp only [pipelineCalls, pipelineDraws, draws_append, run_append]
  refine ⟨?_, ?_⟩
  · rw [w1, w2,
      draws_envMapCalls env (n + 0) (n + 1) (n + 2) vao (n + 3) _ a2 e2
        ((congrFun s2 (n + 1)).trans s1) (Nat.succ_ne_zero _),
      draws_irrMapCalls env (n + 0) (n + 1) (n + 2) (n + 3) vao (n + 4) _ a3 e3 t3
        (Nat.succ_ne_zero _),
      draws_prefilterCalls env (n + 0) (n + 1) (n + 2) (n + 3) vao (n + 5) _ a4 e4
        ((congrFun t4 GL_TEXTURE0).trans t3) (Nat.succ_ne_zero _),
      draws_brdfCalls (n + 0) (n + 1) (n + 3) (n + 6) (n + 7) (n + 8) _ a5 e5 c5
        (Nat.succ_ne_zero _)]
    rfl
  · rw [run_brdfCalls]
    exact a5

/-! ## Renaming -/

set_option maxRecDepth 100000 in
theorem pipelineCalls_rename (env : Env) (img : StbiImage) (vao : GLuint) (name : Nat → GLuint)
    (ρ : GLuint → GLuint) (h0 : ρ 0 = 0) :
    (pipelineCalls env img vao name).map (GLCall.rename ρ) =
      pipelineCalls env img (ρ vao) (fun k => ρ (name k)) := by
  simp [pipelineCalls, framebufferCalls, hdrCalls, envMapCalls, irrMapCalls, prefilterCalls,
    prefilterMipCalls, brdfCalls, allocCubeCalls, captureFaceCalls, range_six, range_five,
    maxMipLevels, cubeDraw, GLCall.rename, h0]

theorem pipelineDraws_rename (vao : GLuint) (name : Nat → GLuint) (ρ : GLuint → GLuint) :
    (pipelineDraws vao name).map (Draw.rename ρ) =
      pipelineDraws (ρ vao) (fun k => ρ (name k)) := by
  simp [pipelineDraws, captureDraw, brdfDraw, range_six, range_five, maxMipLevels, cubeDraw,
    Draw.rename, GLCall.rename]

theorem shiftNames_below (base by_ h : Nat) (hlt : h < base) : shiftNames base by_ h = h := by
  simp [shiftNames, hlt]

theorem shiftNames_add (base by_ k : Nat) : shiftNames base by_ (base + k) = base + by_ + k := by
  simp [shiftNames]; omega

theorem shiftNames_injective (base by_ : Nat) : Function.Injective (shiftNames base by_) := by
  intro a b h
  simp only [shiftNames] at h
  split_ifs at h <;> omega

/-! ## Failure of the panorama decode (C1, C2) -/

/-- C1 (the code departs from the claim).  On `missing.hdr`, which does not
decode, `loadCubemapFileHDR` still returns true, and the cube-projection stage
still runs: six draws render into the environment cubemap it has just
created. -/
theorem loadCubemapFileHDR_decode_failure_returns_true :
    sampleEnv.stbi_loadf "missing.hdr" = none ∧
    (loadCubemapFileHDR sampleEnv "missing.hdr" sampleWorld).1 = true ∧
    (drawsInto (loadCubemapFileHDR sampleEnv "missing.hdr" sampleWorld).2.self.envCubemap
      (loadCubemapFileHDR sampleEnv "missing.hdr" sampleWorld).2.calls).length = 6 := by
  refine ⟨by decide, rfl, ?_⟩
  set_option maxRecDepth 100000 in rfl

/-- C2 (the code departs from the claim).  After a successful run, a second run
on `missing.hdr`, which does not decode, replaces each of the four lighting
texture handles by a new name. -/
theorem loadCubemapFileHDR_decode_failure_replaces_textures :
    sampleEnv.stbi_loadf "missing.hdr" = none ∧
    (litWorld.self.envCubemap, litWorld.self.irradianceMap, litWorld.self.prefilterMap,
      litWorld.self.brdfLUTTexture) = (4, 5, 6, 7) ∧
    ((loadCubemapFileHDR sampleEnv "missing.hdr" litWorld).2.self.envCubemap,
      (loadCubemapFileHDR sampleEnv "missing.hdr" litWorld).2.self.irradianceMap,
      (loadCubemapFileHDR sampleEnv "missing.hdr" litWorld).2.self.prefilterMap,
      (loadCubemapFileHDR sampleEnv "missing.hdr" litWorld).2.self.brdfLUTTexture)
      = (12, 13, 14, 15) := by
  refine ⟨by decide, ?_, ?_⟩ <;> set_option maxRecDepth 100000 in rfl

/-! ## Shader programs (C3) -/

/-- C3 (the code departs from the claim).  With shader files that can be read
but neither compile nor link, `LoadProgram` returns true, the program it leaves
is not linked, and `initializeGL` does not stop. -/
theorem LoadProgram_true_when_compile_and_link_fail :
    sampleEnv.compiles .Vertex "not a shader" = false ∧
    sampleEnv.compiles .Fragment "not a shader" = false ∧
    (LoadProgram sampleEnv kSkyVertexShaderFile kSkyFragmentShaderFile .new).1 = true ∧
    (LoadProgram sampleEnv kSkyVertexShaderFile kSkyFragmentShaderFile .new).2.linked = false ∧
    (initializeGL sampleEnv sampleWorld).isSome = true := by
  refine ⟨rfl, rfl, rfl, rfl, ?_⟩
  set_option maxRecDepth 100000 in rfl

/-! ## Uniform lookups are not checked (C4) -/

/-- C4 (the claim as stated fails).  In `sampleEnv` every uniform lookup yields
-1, yet the three stages issue their 6, 6 and 30 draws and `paintGL` its two. -/
theorem stages_draw_with_absent_uniforms :
    (∀ p name, sampleEnv.uniformLocation p name = -1) ∧
    ((issued sampleWorld (setupEnvMap sampleEnv sampleWorld)).filter isDraw).length = 6 ∧
    ((issued sampleWorld (setupIrrMap sampleEnv sampleWorld)).filter isDraw).length = 6 ∧
    ((issued sampleWorld (setupPrefilterMap sampleEnv sampleWorld)).filter isDraw).length = 30 ∧
    ((issued readyWorld (paintGL sampleEnv readyWorld)).filter isDraw).length = 2 := by
  refine ⟨fun _ _ => rfl, ?_, ?_, ?_, ?_⟩ <;> set_option maxRecDepth 100000 in rfl

set_option maxRecDepth 20000 in
/-- C4, amended.  No stage checks what a uniform lookup yields: for every
result of the lookups, `setupEnvMap`, `setupIrrMap` and `setupPrefilterMap`
issue their 6, 6 and 30 draws of the cube and `paintGL` its draws, and each
stage and each pass of `paintGL` hands the locations it looked up, as they are,
to its `glUniform*` calls. -/
theorem stages_draw_whatever_lookups_yield (env : Env) (s : World) :
    (issued s (setupEnvMap env s)).filter isDraw = List.replicate 6 cubeDraw ∧
    (issued s (setupIrrMap env s)).filter isDraw = List.replicate 6 cubeDraw ∧
    (issued s (setupPrefilterMap env s)).filter isDraw = List.replicate 30 cubeDraw ∧
    (issued s (paintGL env s)).filter isDraw = paintDraws s.self ∧
    (issued s (setupEnvMap env s)).filterMap uniformLocationOf =
      [ env.uniformLocation .equirect_to_cubemap_program_ "equirectangularMap",
        env.uniformLocation .equirect_to_cubemap_program_ "projection" ] ++
      List.replicate 6 (env.uniformLocation .equirect_to_cubemap_program_ "view") ∧
    (issued s (setupIrrMap env s)).filterMap uniformLocationOf =
      [ env.uniformLocation .irradiance_program_ "environmentMap",
        env.uniformLocation .irradiance_program_ "projection" ] ++
      List.replicate 6 (env.uniformLocation .irradiance_program_ "view") ∧
    (issued s (setupPrefilterMap env s)).filterMap uniformLocationOf =
      [ env.uniformLocation .prefilter_program_ "environmentMap",
        env.uniformLocation .prefilter_program_ "projection" ] ++
      (List.range 5).flatMap (fun _ =>
        env.uniformLocation .prefilter_program_ "roughness" ::
          List.replicate 6 (env.uniformLocation .prefilter_program_ "view")) ∧
    (∀ (mesh : TriangleMesh) (projection view model : Mat4) (normal : Mat3) (cameraPos : Vec3),
      (issued s (paintMesh env mesh projection view model normal cameraPos s)).filterMap
        uniformLocationOf = meshUniformLocations env s.self.reflection_) ∧
    (∀ (projection view : Mat4) (normal : Mat3),
      (issued s (paintSky env projection view normal s)).filterMap uniformLocationOf =
        skyUniformLocations env) := by
  refine ⟨?_, ?_, ?_, ?_, ?_, ?_, ?_, ?_, ?_⟩
  · rw [issued_eq _ _ _ (by rw [setupEnvMap_eq])]
    simp [envMapCalls, allocCubeCalls, captureFaceCalls, range_six, isDraw, cubeDraw,
      List.replicate]
  · rw [issued_eq _ _ _ (by rw [setupIrrMap_eq])]
    simp [irrMapCalls, allocCubeCalls, captureFaceCalls, range_six, isDraw, cubeDraw,
      List.replicate]
  · rw [issued_eq _ _ _ (by rw [setupPrefilterMap_eq])]
    simp [prefilterCalls, prefilterMipCalls, allocCubeCalls, captureFaceCalls, range_six,
      range_five, maxMipLevels, isDraw, cubeDraw, List.replicate]
  · rw [issued_eq _ _ _ (by rw [paintGL_eq])]
    cases hi : s.self.initialized_ <;> cases hm : s.self.mesh_ <;>
      cases hr : s.self.reflection_ <;>
      simp [paintCalls, paintDraws, meshPassCalls, skyPassCalls, isDraw, cubeDraw, hi, hm, hr]
  · rw [issued_eq _ _ _ (by rw [setupEnvMap_eq])]
    simp [envMapCalls, allocCubeCalls, captureFaceCalls, range_six, uniformLocationOf, cubeDraw,
      List.replicate]
  · rw [issued_eq _ _ _ (by rw [setupIrrMap_eq])]
    simp [irrMapCalls, allocCubeCalls, captureFaceCalls, range_six, uniformLocationOf, cubeDraw,
      List.replicate]
  · rw [issued_eq _ _ _ (by rw [setupPrefilterMap_eq])]
    simp [prefilterCalls, prefilterMipCalls, allocCubeCalls, captureFaceCalls, range_six,
      range_five, maxMipLevels, uniformLocationOf, cubeDraw, List.replicate]
  · intro mesh projection view model normal cameraPos
    rw [issued_eq _ _ _ (by rw [paintMesh_eq])]
    cases hr : s.self.reflection_ <;>
      simp [meshPassCalls, meshUniformLocations, uniformLocationOf, hr]
  · intro projection view normal
    rw [issued_eq _ _ _ (by rw [paintSky_eq])]
    simp [skyPassCalls, skyUniformLocations, uniformLocationOf, cubeDraw]

/-! ## The radiance buffer (C5) -/

/-- C5 (the code departs from the claim).  `grey.png` decodes, with the layout
stb_image documents, to a 1x1 image of one channel; `loadHDRenvMap` hands its
buffer of one float to an upload declared as 1x1 `GL_RGB`, which is three
floats. -/
theorem loadHDRenvMap_buffer_not_three_channels :
    sampleEnv.stbi_loadf "grey.png" = some greyImage ∧ greyImage.WellFormed ∧
    floatUploads (loadHDRenvMap sampleEnv "grey.png" sampleWorld).calls
      = [(1, 1, GL_RGB, [1 / 2])] ∧
    (([1 / 2] : List ℚ).length : Int) ≠ 1 * 1 * 3 := by
  refine ⟨rfl, by decide, rfl, by decide⟩

/-! ## The BRDF table (C6) -/

/-- C6. What `setupBRDF` issues does not depend on the panorama.  In a run of
`loadCubemapFileHDR`, for any file and any result of decoding it, its calls are
those of `brdfCalls` (a 512x512 two-channel target, 512x512 depth storage and
viewport, the BRDF program, one draw of a four-vertex strip) on the capture
framebuffer and renderbuffer and on the three names it is handed; so two runs
from the same world issue the same calls when both panoramas decode or both
fail, and otherwise the same calls up to these three names.  From any world,
changing `hdrTexture` and `envCubemap` changes none of its calls. -/
theorem setupBRDF_independent_of_panorama (env₁ env₂ : Env) (path₁ path₂ : String)
    (s : World) :
    brdfStage env₁ path₁ s =
      brdfCalls s.nextName (s.nextName + 1) (s.nextName + namesBeforeBRDF env₁ path₁)
        (s.nextName + namesBeforeBRDF env₁ path₁ + 1)
        (s.nextName + namesBeforeBRDF env₁ path₁ + 2) ∧
    brdfStage env₂ path₂ s =
      brdfCalls s.nextName (s.nextName + 1) (s.nextName + namesBeforeBRDF env₂ path₂)
        (s.nextName + namesBeforeBRDF env₂ path₂ + 1)
        (s.nextName + namesBeforeBRDF env₂ path₂ + 2) ∧
    ((env₁.stbi_loadf path₁).isSome = (env₂.stbi_loadf path₂).isSome →
      brdfStage env₁ path₁ s = brdfStage env₂ path₂ s) ∧
    (∀ (w : World) (h e : GLuint),
      issued (w.withSelf fun x => { x with hdrTexture := h, envCubemap := e })
          (setupBRDF (w.withSelf fun x => { x with hdrTexture := h, envCubemap := e })) =
        issued w (setupBRDF w)) := by
  refine ⟨brdfStage_eq _ _ _, brdfStage_eq _ _ _, ?_, ?_⟩
  · intro h
    rw [brdfStage_eq, brdfStage_eq]
    simp only [namesBeforeBRDF, h]
  · intro w h e
    rw [issued_eq _ _ _ (by rw [setupBRDF_eq]), issued_eq _ _ _ (by rw [setupBRDF_eq])]
    rfl

/-- C6, at an input: `pano.hdr` and `grey.png` decode to different images, and
the calls of `setupBRDF` are the same in the two runs. -/
theorem setupBRDF_independent_of_panorama_witness :
    sampleEnv.stbi_loadf "pano.hdr" ≠ sampleEnv.stbi_loadf "grey.png" ∧
    (sampleEnv.stbi_loadf "pano.hdr").isSome = (sampleEnv.stbi_loadf "grey.png").isSome ∧
    brdfStage sampleEnv "pano.hdr" sampleWorld = brdfStage sampleEnv "grey.png" sampleWorld :=
  ⟨by simp [sampleEnv, samplePanorama, greyImage], rfl,
    (setupBRDF_independent_of_panorama sampleEnv sampleEnv "pano.hdr" "grey.png"
      sampleWorld).2.2.1 rfl⟩

/-! ## Running the pipeline twice (C7) -/

/-- C7. Two runs of `loadCubemapFileHDR` on the same file, which decodes, one
after the other: the second issues the calls of the first with the nine names
the first was handed moved up by nine and every older name unchanged, a
renaming that is injective.  Started with texture unit 0 active, each draw of
the second run meets the state the matching draw of the first run met, under
the same renaming: framebuffer, colour attachment and its size, depth size,
viewport, program, vertex array, active unit and the textures of unit 0. -/
theorem loadCubemapFileHDR_twice (env : Env) (path : String) (img : StbiImage) (s : World)
    (g : GLState) (hdec : env.stbi_loadf path = some img)
    (hvao : s.self.skyboxVAO < s.nextName) (hunit : g.activeTexture = GL_TEXTURE0) :
    issued (loadCubemapFileHDR env path s).2
        (loadCubemapFileHDR env path (loadCubemapFileHDR env path s).2).2 =
      (issued s (loadCubemapFileHDR env path s).2).map
        (GLCall.rename (shiftNames s.nextName 9)) ∧
    Function.Injective (shiftNames s.nextName 9) ∧
    draws (g.run (issued s (loadCubemapFileHDR env path s).2))
        (issued (loadCubemapFileHDR env path s).2
          (loadCubemapFileHDR env path (loadCubemapFileHDR env path s).2).2) =
      (draws g (issued s (loadCubemapFileHDR env path s).2)).map
        (Draw.rename (shiftNames s.nextName 9)) := by
  have e1 : issued s (loadCubemapFileHDR env path s).2 =
      pipelineCalls env img s.self.skyboxVAO (fun k => s.nextName + k) :=
    issued_eq _ _ _ (by rw [loadCubemapFileHDR_some env path s img hdec])
  have e2 : issued (loadCubemapFileHDR env path s).2
      (loadCubemapFileHDR env path (loadCubemapFileHDR env path s).2).2 =
      pipelineCalls env img s.self.skyboxVAO (fun k => s.nextName + 9 + k) := by
    refine issued_eq _ _ _ ?_
    rw [loadCubemapFileHDR_some env path _ img hdec, loadCubemapFileHDR_some env path s img hdec]
  have h0 : shiftNames s.nextName 9 0 = 0 := shiftNames_below _ _ _ (Nat.lt_of_le_of_lt (Nat.zero_le _) hvao)
  have hv : shiftNames s.nextName 9 s.self.skyboxVAO = s.self.skyboxVAO :=
    shiftNames_below _ _ _ hvao
  have hn : (fun k => shiftNames s.nextName 9 (s.nextName + k)) = fun k => s.nextName + 9 + k :=
    funext fun k => shiftNames_add _ _ _
  obtain ⟨d1, a1⟩ := draws_pipelineCalls env img s.self.skyboxVAO s.nextName g hunit
  refine ⟨?_, shiftNames_injective _ _, ?_⟩
  · rw [e1, e2, pipelineCalls_rename _ _ _ _ _ h0, hv, hn]
  · rw [e1, e2, d1, (draws_pipelineCalls env img s.self.skyboxVAO (s.nextName + 9) _ a1).1,
      pipelineDraws_rename, hv, hn]

/-- C7, at an input: `pano.hdr` decodes, the cube array of `sampleWorld` is older
than its first unused name, and a fresh context has unit 0 active. -/
theorem loadCubemapFileHDR_twice_witness :
    sampleEnv.stbi_loadf "pano.hdr" = some samplePanorama ∧
    sampleWorld.self.skyboxVAO < sampleWorld.nextName ∧
    GLState.initial.activeTexture = GL_TEXTURE0 ∧
    issued (loadCubemapFileHDR sampleEnv "pano.hdr" sampleWorld).2
        (loadCubemapFileHDR sampleEnv "pano.hdr"
          (loadCubemapFileHDR sampleEnv "pano.hdr" sampleWorld).2).2 =
      (issued sampleWorld (loadCubemapFileHDR sampleEnv "pano.hdr" sampleWorld).2).map
        (GLCall.rename (shiftNames sampleWorld.nextName 9)) ∧
    Function.Injective (shiftNames sampleWorld.nextName 9) ∧
    draws (GLState.initial.run
          (issued sampleWorld (loadCubemapFileHDR sampleEnv "pano.hdr" sampleWorld).2))
        (issued (loadCubemapFileHDR sampleEnv "pano.hdr" sampleWorld).2
          (loadCubemapFileHDR sampleEnv "pano.hdr"
            (loadCubemapFileHDR sampleEnv "pano.hdr" sampleWorld).2).2) =
      (draws GLState.initial
          (issued sampleWorld (loadCubemapFileHDR sampleEnv "pano.hdr" sampleWorld).2)).map
        (Draw.rename (shiftNames sampleWorld.nextName 9)) :=
  ⟨rfl, by decide, rfl,
    loadCubemapFileHDR_twice sampleEnv "pano.hdr" samplePanorama sampleWorld GLState.initial rfl
      (by decide) rfl⟩

/-! ## The two shading modes (C8, C9) -/

/-- C8. For every camera state, the matrices and the camera position `paintGL`
uploads in a frame are the same in reflection mode as in PBR mode; in either
mode the mesh pass uploads the projection, view, model and normal matrices and
the camera position it is given, in this order.  `SetBRDF` sets the mode flag
to the opposite of what `SetReflection` sets it to. -/
theorem paintGL_uploads_same_matrices_in_both_modes (env : Env) (s : World) :
    uploadedValues (issued (s.withSelf (SetReflection true))
        (paintGL env (s.withSelf (SetReflection true)))) =
      uploadedValues (issued (s.withSelf (SetReflection false))
        (paintGL env (s.withSelf (SetReflection false)))) ∧
    (∀ (b : Bool) (mesh : TriangleMesh) (projection view model : Mat4) (normal : Mat3)
        (cameraPos : Vec3),
      uploadedValues (issued (s.withSelf (SetReflection b))
        (paintMesh env mesh projection view model normal cameraPos
          (s.withSelf (SetReflection b)))) =
        [.mat4 projection, .mat4 view, .mat4 model, .mat3 normal, .vec3 cameraPos]) ∧
    (∀ b, SetBRDF b s.self = SetReflection (!b) s.self) := by
  refine ⟨?_, ?_, fun _ => rfl⟩
  · rw [issued_eq _ _ _ (by rw [paintGL_eq]), issued_eq _ _ _ (by rw [paintGL_eq])]
    cases hi : s.self.initialized_ <;> cases hm : s.self.mesh_ <;>
      simp [paintCalls, meshPassCalls, skyPassCalls, World.withSelf, SetReflection,
        uploadedValues, uploadedValues_append, cubeDraw, hi, hm]
  · intro b mesh projection view model normal cameraPos
    rw [issued_eq _ _ _ (by rw [paintMesh_eq])]
    cases b <;> simp [meshPassCalls, World.withSelf, SetReflection, uploadedValues]

/-- C9. In reflection mode the calls of `paintGL` are the same for all values
of the roughness and metalness parameters, and the only texture the mesh pass
binds is the environment cubemap. -/
theorem paintGL_reflection_ignores_material (env : Env) (s : World) (r₁ m₁ r₂ m₂ : ℚ)
    (h : s.self.reflection_ = true) :
    issued (s.withSelf (SetMetalness m₁ ∘ SetRoughness r₁))
        (paintGL env (s.withSelf (SetMetalness m₁ ∘ SetRoughness r₁))) =
      issued (s.withSelf (SetMetalness m₂ ∘ SetRoughness r₂))
        (paintGL env (s.withSelf (SetMetalness m₂ ∘ SetRoughness r₂))) ∧
    (∀ (mesh : TriangleMesh) (projection view model : Mat4) (normal : Mat3) (cameraPos : Vec3),
      textureBinds (issued s (paintMesh env mesh projection view model normal cameraPos s)) =
        [(GL_TEXTURE_CUBE_MAP, s.self.envCubemap)]) := by
  refine ⟨?_, ?_⟩
  · rw [issued_eq _ _ _ (by rw [paintGL_eq]), issued_eq _ _ _ (by rw [paintGL_eq])]
    cases hi : s.self.initialized_ <;> cases hm : s.self.mesh_ <;>
      simp [paintCalls, meshPassCalls, skyPassCalls, World.withSelf, SetMetalness, SetRoughness,
        hi, hm, h]
  · intro mesh projection view model normal cameraPos
    rw [issued_eq _ _ _ (by rw [paintMesh_eq])]
    simp [meshPassCalls, h, textureBinds]

set_option maxRecDepth 100000 in
/-- C9, at an input: `readyWorld` is in reflection mode. -/
theorem paintGL_reflection_ignores_material_witness :
    readyWorld.self.reflection_ = true ∧
    issued (readyWorld.withSelf (SetMetalness 1 ∘ SetRoughness (1 / 2)))
        (paintGL sampleEnv (readyWorld.withSelf (SetMetalness 1 ∘ SetRoughness (1 / 2)))) =
      issued (readyWorld.withSelf (SetMetalness 0 ∘ SetRoughness 0))
        (paintGL sampleEnv (readyWorld.withSelf (SetMetalness 0 ∘ SetRoughness 0))) ∧
    (∀ (mesh : TriangleMesh) (projection view model : Mat4) (normal : Mat3) (cameraPos : Vec3),
      textureBinds (issued readyWorld
          (paintMesh sampleEnv mesh projection view model normal cameraPos readyWorld)) =
        [(GL_TEXTURE_CUBE_MAP, readyWorld.self.envCubemap)]) :=
  ⟨rfl, paintGL_reflection_ignores_material sampleEnv readyWorld (1 / 2) 1 0 0 rfl⟩

/-! ## Cube maps from six image files (C10) -/

/-- C10. `LoadCubeMap` returns true exactly when all six face files load; the
faces are +X, -X, +Y, -Y, +Z, -Z in the order right, left, top, bottom, back,
front; the calls it issues are the uploads of the faces before the first one
that fails to load, in that order, followed by the sampler parameters only when
no face failed; it generates no name.  `LoadSpecularMap` and `LoadDiffuseMap`
return what `LoadCubeMap` returns. -/
theorem LoadCubeMap_all_or_stop (env : Env) (dir : String) (s : World) :
    ((LoadCubeMap env dir s).1 = true ↔ ∀ f ∈ cubeFaces, faceLoads env dir f = true) ∧
    cubeFaces.map Prod.snd = (List.range 6).map (fun i => GL_TEXTURE_CUBE_MAP_POSITIVE_X + i) ∧
    (LoadCubeMap env dir s).2.calls =
      s.calls ++ (cubeFaces.takeWhile (faceLoads env dir)).filterMap (faceUpload env dir) ++
        (if (LoadCubeMap env dir s).1 then cubeSamplerParameters else []) ∧
    (LoadCubeMap env dir s).2.nextName = s.nextName ∧
    ((LoadSpecularMap env dir s).1 = true ↔ ∀ f ∈ cubeFaces, faceLoads env dir f = true) ∧
    ((LoadDiffuseMap env dir s).1 = true ↔ ∀ f ∈ cubeFaces, faceLoads env dir f = true) := by
  have key : ∀ s : World,
      ((LoadCubeMap env dir s).1 = true ↔ ∀ f ∈ cubeFaces, faceLoads env dir f = true) ∧
      (LoadCubeMap env dir s).2.calls =
        s.calls ++ (cubeFaces.takeWhile (faceLoads env dir)).filterMap (faceUpload env dir) ++
          (if (LoadCubeMap env dir s).1 then cubeSamplerParameters else []) ∧
      (LoadCubeMap env dir s).2.nextName = s.nextName := by
    intro s
    refine ⟨?_, ?_, ?_⟩ <;>
    · unfold LoadCubeMap
      cases h1 : env.qimageLoad (dir ++ "/right.png") <;>
      cases h2 : env.qimageLoad (dir ++ "/left.png") <;>
      cases h3 : env.qimageLoad (dir ++ "/top.png") <;>
      cases h4 : env.qimageLoad (dir ++ "/bottom.png") <;>
      cases h5 : env.qimageLoad (dir ++ "/back.png") <;>
      cases h6 : env.qimageLoad (dir ++ "/front.png") <;>
      simp [LoadImage, andLoadImage, cubeFaces, faceLoads, faceUpload, cubeSamplerParameters,
        World.emit, World.emits, *]
  exact ⟨(key s).1, by decide, (key s).2.1, (key s).2.2, (key _).1, (key _).1⟩

/-! ## Loading a model (C11) -/

/-- C11 (the claim as stated fails).  The file name `ply` has no `.`, so no
text follows a last `.`; the PLY reader succeeds on it, and `LoadModel` returns
true. -/
theorem LoadModel_true_without_extension :
    extensionOf "ply" = none ∧ (plyEnv.ReadFromPly "ply").isSome = true ∧
    (LoadModel plyEnv "ply" sampleWorld).1 = true := by
  refine ⟨by decide, rfl, rfl⟩

theorem fileType_of_extension (file e : String) (h : extensionOf file = some e) :
    fileType file = e := by
  unfold extensionOf at h
  split at h
  · exact Option.some.inj h
  · cases h

theorem fileType_of_no_extension (file : String) (h : extensionOf file = none) :
    fileType file = file := by
  unfold extensionOf at h
  split at h
  · cases h
  · rename_i hn
    have : file.data.reverse.takeWhile (fun c => c != '.') = file.data.reverse := by
      rw [List.takeWhile_eq_self_iff]
      intro c hc
      have hc' : c ∈ file.data := List.mem_reverse.mp hc
      simp only [bne_iff_ne, ne_eq]
      intro hcd
      exact hn (hcd ▸ hc')
    simp [fileType, this]

/-- C11, amended.  `LoadModel` returns true exactly when the text after the last
`.` of the file name, or the whole name when it has no `.`, is `ply` and the
PLY reader succeeds on the file; whenever it returns false the world is as
before: `mesh_` and every other member unchanged, no name generated, no GL call
issued. -/
theorem LoadModel_true_iff (env : Env) (filename : String) (s : World) :
    ((LoadModel env filename s).1 = true ↔
      fileType filename = "ply" ∧ (env.ReadFromPly filename).isSome = true) ∧
    ((LoadModel env filename s).1 = false → (LoadModel env filename s).2 = s) ∧
    (∀ e, extensionOf filename = some e → fileType filename = e) ∧
    (extensionOf filename = none → fileType filename = filename) := by
  refine ⟨?_, ?_, fun e h => fileType_of_extension _ _ h, fileType_of_no_extension _⟩
  · unfold LoadModel
    by_cases ht : fileType filename = "ply" <;> cases hr : env.ReadFromPly filename <;>
      simp [ht, hr]
  · unfold LoadModel
    by_cases ht : fileType filename = "ply" <;> cases hr : env.ReadFromPly filename <;>
      simp [ht, hr]

/-! ## The events of each stage -/

theorem stageEvents_envMapCalls (env : Env) (fbo hdr vao envc : GLuint) :
    stageEvents (envMapCalls env fbo hdr vao envc) =
      [ .matrix (env.uniformLocation .equirect_to_cubemap_program_ "projection")
          captureProjection,
        .viewport 0 0 512 512 ] ++
      (List.range 6).flatMap
        (faceEvents (env.uniformLocation .equirect_to_cubemap_program_ "view") envc 0) := by
  simp [stageEvents, stageEvent, envMapCalls, allocCubeCalls, captureFaceCalls, faceEvents,
    range_six, cubeDraw]

theorem stageEvents_irrMapCalls (env : Env) (fbo rbo envc vao irr : GLuint) :
    stageEvents (irrMapCalls env fbo rbo envc vao irr) =
      [ .generateMipmap GL_TEXTURE_CUBE_MAP,
        .resize 32 32,
        .matrix (env.uniformLocation .irradiance_program_ "projection") captureProjection,
        .viewport 0 0 32 32 ] ++
      (List.range 6).flatMap
        (faceEvents (env.uniformLocation .irradiance_program_ "view") irr 0) := by
  simp [stageEvents, stageEvent, irrMapCalls, allocCubeCalls, captureFaceCalls, faceEvents,
    range_six, cubeDraw]

set_option maxRecDepth 20000 in
theorem stageEvents_prefilterCalls (env : Env) (fbo rbo envc vao pre : GLuint) :
    stageEvents (prefilterCalls env fbo rbo envc vao pre) =
      [ .generateMipmap GL_TEXTURE_CUBE_MAP,
        .matrix (env.uniformLocation .prefilter_program_ "projection") captureProjection ] ++
      (List.range 5).flatMap (fun mip =>
        [ .resize (mipSize mip) (mipSize mip),
          .viewport 0 0 (mipSize mip) (mipSize mip),
          .float (env.uniformLocation .prefilter_program_ "roughness")
            ((mip : ℚ) / ((maxMipLevels - 1 : Nat) : ℚ)) ] ++
        (List.range 6).flatMap
          (faceEvents (env.uniformLocation .prefilter_program_ "view") pre mip)) := by
  simp [stageEvents, stageEvent, prefilterCalls, prefilterMipCalls, allocCubeCalls,
    captureFaceCalls, faceEvents, range_six, range_five, maxMipLevels, cubeDraw]

theorem mipSize_eq_shift (mip : Nat) : mipSize mip = 128 >>> mip := by
  have h : (128 * (1 / 2 : ℚ) ^ mip) = ((128 : ℤ) : ℚ) / ((2 ^ mip : ℕ) : ℚ) := by
    push_cast
    rw [one_div, inv_pow, div_eq_mul_inv]
  rw [mipSize_eq_floor, h, Rat.floor_intCast_div_natCast, Nat.shiftRight_eq_div_pow]
  norm_cast

/-! ## The specular prefilter (C12, C13, C14) -/

set_option maxRecDepth 20000 in
/-- C12. In `setupPrefilterMap` the roughness uploaded for mip `m`, before the
six draws of that mip, is `m / 4`: the values are 0, 1/4, 1/2, 3/4, 1, strictly
increasing in `m`. -/
theorem prefilter_roughness_per_mip (env : Env) (s : World) :
    (stageEvents (issued s (setupPrefilterMap env s))).filter
        (fun e => e.isFloat || e.isDraw) =
      (List.range 5).flatMap (fun mip =>
        .float (env.uniformLocation .prefilter_program_ "roughness") ((mip : ℚ) / 4) ::
          List.replicate 6 .draw) ∧
    (List.range 5).map (fun mip : Nat => (mip : ℚ) / 4) = [0, 1 / 4, 1 / 2, 3 / 4, 1] ∧
    StrictMono (fun mip : Nat => (mip : ℚ) / 4) := by
  refine ⟨?_, ?_, ?_⟩
  · rw [issued_eq _ _ _ (by rw [setupPrefilterMap_eq]), stageEvents_prefilterCalls]
    simp [faceEvents, range_six, range_five, maxMipLevels, StageEvent.isFloat,
      StageEvent.isDraw, List.replicate]
  · simp [range_five]
    norm_num
  · intro a b hab
    have : (a : ℚ) < b := by exact_mod_cast hab
    simp only
    linarith

set_option maxRecDepth 20000 in
/-- C13. The side `128 * pow(0.5, m)` converted to unsigned is `128 >> m` for
every `m`, so 128, 64, 32, 16, 8 for the five mips; in `setupPrefilterMap` the
depth storage and the viewport of mip `m` are both set to a square of that
side. -/
theorem prefilter_mip_sizes (env : Env) (s : World) :
    (∀ mip, mipSize mip = 128 >>> mip) ∧
    (List.range 5).map mipSize = [128, 64, 32, 16, 8] ∧
    (stageEvents (issued s (setupPrefilterMap env s))).filter
        (fun e => e.isResize || e.isViewport) =
      (List.range 5).flatMap (fun mip =>
        [.resize (128 >>> mip) (128 >>> mip), .viewport 0 0 (128 >>> mip) (128 >>> mip)]) := by
  refine ⟨mipSize_eq_shift, ?_, ?_⟩
  · simp [range_five, mipSize_values]
  · rw [issued_eq _ _ _ (by rw [setupPrefilterMap_eq]), stageEvents_prefilterCalls]
    simp [faceEvents, range_six, range_five, StageEvent.isResize, StageEvent.isViewport,
      mipSize_values]

set_option maxRecDepth 20000 in
/-- C14. `setupPrefilterMap` issues 30 draws, mip by mip: for each mip from 0 to
4 the depth storage is resized once, and then for each face from 0 to 5 the
face of the new prefilter map is attached at that mip and drawn. -/
theorem prefilter_draw_order (env : Env) (s : World) :
    (stageEvents (issued s (setupPrefilterMap env s))).filter
        (fun e => e.isResize || e.isAttach || e.isDraw) =
      (List.range 5).flatMap (fun mip =>
        .resize (128 >>> mip) (128 >>> mip) ::
          (List.range 6).flatMap (fun i =>
            [.attach (GL_TEXTURE_CUBE_MAP_POSITIVE_X + i) s.nextName mip, .draw])) ∧
    (setupPrefilterMap env s).self.prefilterMap = s.nextName ∧
    ((stageEvents (issued s (setupPrefilterMap env s))).filter StageEvent.isDraw).length = 30 := by
  refine ⟨?_, by rw [setupPrefilterMap_eq], ?_⟩ <;>
  · rw [issued_eq _ _ _ (by rw [setupPrefilterMap_eq]), stageEvents_prefilterCalls]
    simp [faceEvents, range_six, range_five, StageEvent.isResize, StageEvent.isAttach,
      StageEvent.isDraw, mipSize_values]

/-! ## Faces and views (C16) -/

set_option maxRecDepth 20000 in
/-- C16. In `setupEnvMap`, `setupIrrMap` and `setupPrefilterMap`, after the
upload of the projection, the matrix uploads, attachments, clears and draws are
those of `faceEvents` for the faces 0 to 5 in turn (in the prefilter, for each
mip in turn): `captureViews i` is uploaded to the location of `view`, face
`GL_TEXTURE_CUBE_MAP_POSITIVE_X + i` of the stage's new cube map is attached,
colour and depth are cleared, and the cube is drawn. -/
theorem cube_stage_faces (env : Env) (s : World) :
    (stageEvents (issued s (setupEnvMap env s))).filter
        (fun e => e.isMatrix || e.isAttach || e.isClear || e.isDraw) =
      .matrix (env.uniformLocation .equirect_to_cubemap_program_ "projection")
          captureProjection ::
        (List.range 6).flatMap
          (faceEvents (env.uniformLocation .equirect_to_cubemap_program_ "view") s.nextName 0) ∧
    (setupEnvMap env s).self.envCubemap = s.nextName ∧
    (stageEvents (issued s (setupIrrMap env s))).filter
        (fun e => e.isMatrix || e.isAttach || e.isClear || e.isDraw) =
      .matrix (env.uniformLocation .irradiance_program_ "projection") captureProjection ::
        (List.range 6).flatMap
          (faceEvents (env.uniformLocation .irradiance_program_ "view") s.nextName 0) ∧
    (setupIrrMap env s).self.irradianceMap = s.nextName ∧
    (stageEvents (issued s (setupPrefilterMap env s))).filter
        (fun e => e.isMatrix || e.isAttach || e.isClear || e.isDraw) =
      .matrix (env.uniformLocation .prefilter_program_ "projection") captureProjection ::
        (List.range 5).flatMap (fun mip =>
          (List.range 6).flatMap
            (faceEvents (env.uniformLocation .prefilter_program_ "view") s.nextName mip)) ∧
    (setupPrefilterMap env s).self.prefilterMap = s.nextName := by
  refine ⟨?_, by rw [setupEnvMap_eq], ?_, by rw [setupIrrMap_eq], ?_,
    by rw [setupPrefilterMap_eq]⟩
  · rw [issued_eq _ _ _ (by rw [setupEnvMap_eq]), stageEvents_envMapCalls]
    simp [faceEvents, range_six, StageEvent.isMatrix, StageEvent.isAttach, StageEvent.isClear,
      StageEvent.isDraw]
  · rw [issued_eq _ _ _ (by rw [setupIrrMap_eq]), stageEvents_irrMapCalls]
    simp [faceEvents, range_six, StageEvent.isMatrix, StageEvent.isAttach, StageEvent.isClear,
      StageEvent.isDraw]
  · rw [issued_eq _ _ _ (by rw [setupPrefilterMap_eq]), stageEvents_prefilterCalls]
    simp [faceEvents, range_six, range_five, StageEvent.isMatrix, StageEvent.isAttach,
      StageEvent.isClear, StageEvent.isDraw]

/-! ## Matrices -/

theorem sqrt_one : Rat.sqrt 1 = 1 := by
  have h := Rat.sqrt_eq 1
  rwa [mul_one, abs_one] at h

theorem mul_inverse {n : Nat} (m : Matrix (Fin n) (Fin n) ℚ) (h : m.det ≠ 0) :
    m * inverse m = 1 := by
  rw [inverse, Matrix.mul_smul, Matrix.mul_adjugate, smul_smul, inv_mul_cancel₀ h, one_smul]

theorem inverse_mul {n : Nat} (m : Matrix (Fin n) (Fin n) ℚ) (h : m.det ≠ 0) :
    inverse m * m = 1 := by
  rw [inverse, Matrix.smul_mul, Matrix.adjugate_mul, smul_smul, inv_mul_cancel₀ h, one_smul]

theorem captureViews_values :
    captureViews 0 = !![0, 0, -1, 0; 0, -1, 0, 0; -1, 0, 0, 0; 0, 0, 0, 1] ∧
    captureViews 1 = !![0, 0, 1, 0; 0, -1, 0, 0; 1, 0, 0, 0; 0, 0, 0, 1] ∧
    captureViews 2 = !![1, 0, 0, 0; 0, 0, 1, 0; 0, -1, 0, 0; 0, 0, 0, 1] ∧
    captureViews 3 = !![1, 0, 0, 0; 0, 0, -1, 0; 0, 1, 0, 0; 0, 0, 0, 1] ∧
    captureViews 4 = !![1, 0, 0, 0; 0, -1, 0, 0; 0, 0, -1, 0; 0, 0, 0, 1] ∧
    captureViews 5 = !![-1, 0, 0, 0; 0, -1, 0, 0; 0, 0, 1, 0; 0, 0, 0, 1] := by
  refine ⟨?_, ?_, ?_, ?_, ?_, ?_⟩ <;>
    simp [captureViews, lookAt, normalize3, cross3, dot3, sqrt_one]

theorem upperLeft_of (a b c d e f g h i j k l m n o p : ℚ) :
    upperLeft !![a, b, c, d; e, f, g, h; i, j, k, l; m, n, o, p] =
      !![a, b, c; e, f, g; i, j, k] := by
  ext r s; fin_cases r <;> fin_cases s <;> rfl

theorem transpose_of (a b c d e f g h i : ℚ) :
    (!![a, b, c; d, e, f; g, h, i] : Mat3).transpose = !![a, d, g; b, e, h; c, f, i] := by
  ext r s; fin_cases r <;> fin_cases s <;> rfl

theorem normalOf_eq (view model : Mat4) :
    normalOf view model = (inverse (upperLeft (view * model))).transpose := rfl

theorem vec3Uploads_append (a b : List GLCall) :
    vec3Uploads (a ++ b) = vec3Uploads a ++ vec3Uploads b := by
  induction a with
  | nil => rfl
  | cons c cs ih => cases c <;> simp [vec3Uploads, ih]

theorem mat3Uploads_append (a b : List GLCall) :
    mat3Uploads (a ++ b) = mat3Uploads a ++ mat3Uploads b := by
  induction a with
  | nil => rfl
  | cons c cs ih => cases c <;> simp [mat3Uploads, ih]

theorem sampleView_det : sampleView.det ≠ 0 := by
  apply Matrix.det_ne_zero_of_right_inverse (B := sampleViewInverse)
  ext i j
  fin_cases i <;> fin_cases j <;>
    simp [sampleView, sampleViewInverse, Matrix.mul_apply, Fin.sum_univ_four,
      Matrix.vecHead, Matrix.vecTail]

/-! ## The capture views (C17) -/

/-- C17. For each face `i` from 0 to 5, `captureViews i` is a rotation about the
origin: its upper-left 3x3 block is orthonormal with determinant 1, its
translation column is zero, its last row is (0, 0, 0, 1); and the block maps the
axis of the face (+X, -X, +Y, -Y, +Z, -Z) to the forward direction
(0, 0, -1). -/
theorem captureViews_rotation (i : Nat) (hi : i < 6) :
    upperLeft (captureViews i) * (upperLeft (captureViews i)).transpose = 1 ∧
    (upperLeft (captureViews i)).det = 1 ∧
    (captureViews i 0 3 = 0 ∧ captureViews i 1 3 = 0 ∧ captureViews i 2 3 = 0) ∧
    captureViews i 3 = ![0, 0, 0, 1] ∧
    (upperLeft (captureViews i)).mulVec (cubeAxis i) = ![0, 0, -1] := by
  obtain ⟨h0, h1, h2, h3, h4, h5⟩ := captureViews_values
  interval_cases i
  all_goals
    first | rw [h0] | rw [h1] | rw [h2] | rw [h3] | rw [h4] | rw [h5]
    rw [upperLeft_of]
    refine ⟨?_, ?_, ?_, ?_, ?_⟩
    · rw [transpose_of, Matrix.mul_fin_three, Matrix.one_fin_three]
      norm_num
    · simp [Matrix.det_fin_three]
    · simp
    · rfl
    · ext a; fin_cases a <;>
        simp [cubeAxis, Matrix.mulVec, Matrix.dotProduct, Fin.sum_univ_three]

/-- C17, at an input: face 2, whose axis is +Y. -/
theorem captureViews_rotation_witness :
    2 < 6 ∧
    upperLeft (captureViews 2) * (upperLeft (captureViews 2)).transpose = 1 ∧
    (upperLeft (captureViews 2)).det = 1 ∧
    (captureViews 2 0 3 = 0 ∧ captureViews 2 1 3 = 0 ∧ captureViews 2 2 3 = 0) ∧
    captureViews 2 3 = ![0, 0, 0, 1] ∧
    (upperLeft (captureViews 2)).mulVec (cubeAxis 2) = ![0, 0, -1] :=
  ⟨by decide, captureViews_rotation 2 (by decide)⟩

/-! ## The camera position (C19) -/

/-- C19. When the view matrix of the camera is invertible with last row
(0, 0, 0, 1), the camera position `paintGL` uploads for a loaded mesh is the
point the view matrix sends to the origin, `view * (cameraPos, 1) = (0, 0, 0, 1)`;
and the vectors `paintGL` uploads are the same whatever the model matrix. -/
theorem cameraPos_is_eye (env : Env) (s : World) (mesh : TriangleMesh)
    (hinit : s.self.initialized_ = true) (hmesh : s.self.mesh_ = some mesh)
    (hdet : s.self.camera_.SetView.det ≠ 0)
    (hrow : s.self.camera_.SetView 3 = ![0, 0, 0, 1]) :
    vec3Uploads (issued s (paintGL env s)) =
      vec3Uploads s.self.camera_.SetViewport ++ [cameraPosOf s.self.camera_.SetView] ∧
    s.self.camera_.SetView.mulVec
        ![cameraPosOf s.self.camera_.SetView 0, cameraPosOf s.self.camera_.SetView 1,
          cameraPosOf s.self.camera_.SetView 2, 1] = ![0, 0, 0, 1] ∧
    (∀ model : Mat4,
      vec3Uploads (issued (s.withSelf (withModel model))
          (paintGL env (s.withSelf (withModel model)))) =
        vec3Uploads (issued s (paintGL env s))) := by
  have hcalls : ∀ t : World, t.self.initialized_ = true → t.self.mesh_ = some mesh →
      vec3Uploads (issued t (paintGL env t)) =
        vec3Uploads t.self.camera_.SetViewport ++ [cameraPosOf t.self.camera_.SetView] := by
    intro t hi hm
    rw [issued_eq _ _ _ (by rw [paintGL_eq])]
    cases hr : t.self.reflection_ <;>
      simp [paintCalls, meshPassCalls, skyPassCalls, vec3Uploads, vec3Uploads_append, cubeDraw,
        hi, hm, hr]
  refine ⟨hcalls s hinit hmesh, ?_, ?_⟩
  · generalize s.self.camera_.SetView = view at hdet hrow ⊢
    have h := mul_inverse view hdet
    have h33 : inverse view 3 3 = 1 := by
      have := congrFun (congrFun h 3) 3
      simpa [Matrix.mul_apply, Fin.sum_univ_four, hrow] using this
    have hc : ![cameraPosOf view 0, cameraPosOf view 1, cameraPosOf view 2, 1] =
        fun k => inverse view k 3 := by
      ext k; fin_cases k <;> simp [cameraPosOf, h33]
    rw [hc]
    ext r
    have := congrFun (congrFun h r) 3
    simp only [Matrix.mul_apply] at this
    simp only [Matrix.mulVec, Matrix.dotProduct]
    rw [this]
    fin_cases r <;> simp [Matrix.one_apply]
  · intro model
    rw [hcalls s hinit hmesh, hcalls (s.withSelf (withModel model)) hinit hmesh]
    rfl

set_option maxRecDepth 100000 in
/-- C19, at an input: the world `eyeWorld`, whose view matrix is the translation
by (-3, -4, -5). -/
theorem cameraPos_is_eye_witness :
    (eyeWorld.self.initialized_ = true ∧ eyeWorld.self.mesh_ = some sampleMesh ∧
      eyeWorld.self.camera_.SetView.det ≠ 0 ∧
      eyeWorld.self.camera_.SetView 3 = ![0, 0, 0, 1]) ∧
    (vec3Uploads (issued eyeWorld (paintGL sampleEnv eyeWorld)) =
      vec3Uploads eyeWorld.self.camera_.SetViewport ++
        [cameraPosOf eyeWorld.self.camera_.SetView] ∧
    eyeWorld.self.camera_.SetView.mulVec
        ![cameraPosOf eyeWorld.self.camera_.SetView 0,
          cameraPosOf eyeWorld.self.camera_.SetView 1,
          cameraPosOf eyeWorld.self.camera_.SetView 2, 1] = ![0, 0, 0, 1] ∧
    (∀ model : Mat4,
      vec3Uploads (issued (eyeWorld.withSelf (withModel model))
          (paintGL sampleEnv (eyeWorld.withSelf (withModel model)))) =
        vec3Uploads (issued eyeWorld (paintGL sampleEnv eyeWorld)))) :=
  ⟨⟨rfl, rfl, sampleView_det, rfl⟩,
    cameraPos_is_eye sampleEnv eyeWorld sampleMesh rfl rfl sampleView_det rfl⟩

/-! ## The normal matrix (C20) -/

/-- C20. When the upper-left 3x3 block of `view * model` is invertible, the
normal matrix `paintGL` uploads in both passes is the inverse transpose of that
block, so that a normal and a tangent it and the block transform keep their dot
product. -/
theorem normal_is_inverse_transpose (env : Env) (s : World) (mesh : TriangleMesh)
    (hinit : s.self.initialized_ = true) (hmesh : s.self.mesh_ = some mesh)
    (hdet : (upperLeft (s.self.camera_.SetView * s.self.camera_.SetModel)).det ≠ 0) :
    mat3Uploads (issued s (paintGL env s)) =
      mat3Uploads s.self.camera_.SetViewport ++
        [normalOf s.self.camera_.SetView s.self.camera_.SetModel,
         normalOf s.self.camera_.SetView s.self.camera_.SetModel] ∧
    (normalOf s.self.camera_.SetView s.self.camera_.SetModel).transpose *
        upperLeft (s.self.camera_.SetView * s.self.camera_.SetModel) = 1 ∧
    upperLeft (s.self.camera_.SetView * s.self.camera_.SetModel) *
        (normalOf s.self.camera_.SetView s.self.camera_.SetModel).transpose = 1 ∧
    (∀ n t : Vec3,
      Matrix.dotProduct ((normalOf s.self.camera_.SetView s.self.camera_.SetModel).mulVec n)
          ((upperLeft (s.self.camera_.SetView * s.self.camera_.SetModel)).mulVec t) =
        Matrix.dotProduct n t) := by
  have h1 : (normalOf s.self.camera_.SetView s.self.camera_.SetModel).transpose *
      upperLeft (s.self.camera_.SetView * s.self.camera_.SetModel) = 1 := by
    rw [normalOf_eq, Matrix.transpose_transpose, inverse_mul _ hdet]
  have h2 : upperLeft (s.self.camera_.SetView * s.self.camera_.SetModel) *
      (normalOf s.self.camera_.SetView s.self.camera_.SetModel).transpose = 1 := by
    rw [normalOf_eq, Matrix.transpose_transpose, mul_inverse _ hdet]
  refine ⟨?_, h1, h2, fun n t => ?_⟩
  · rw [issued_eq _ _ _ (by rw [paintGL_eq])]
    cases hr : s.self.reflection_ <;>
      simp [paintCalls, meshPassCalls, skyPassCalls, mat3Uploads, mat3Uploads_append, cubeDraw,
        hinit, hmesh, hr]
  · rw [Matrix.dotProduct_mulVec, Matrix.vecMul_mulVec, ← Matrix.mulVec_transpose, h1,
      Matrix.transpose_one, Matrix.one_mulVec]

theorem eyeWorld_block :
    upperLeft (eyeWorld.self.camera_.SetView * eyeWorld.self.camera_.SetModel) =
      !![1, 0, 0; 0, 2, 0; 0, 0, 1] := by
  have h : eyeWorld.self.camera_.SetView * eyeWorld.self.camera_.SetModel =
      !![1, 0, 0, -3; 0, 2, 0, -4; 0, 0, 1, -5; 0, 0, 0, 1] := by
    show sampleView * sampleModel = _
    ext i j
    fin_cases i <;> fin_cases j <;>
      simp [sampleView, sampleModel, Matrix.mul_apply, Fin.sum_univ_four,
        Matrix.vecHead, Matrix.vecTail]
  rw [h, upperLeft_of]

theorem eyeWorld_block_det :
    (upperLeft (eyeWorld.self.camera_.SetView * eyeWorld.self.camera_.SetModel)).det ≠ 0 := by
  rw [eyeWorld_block]
  simp [Matrix.det_fin_three]

set_option maxRecDepth 100000 in
/-- C20, at an input: the world `eyeWorld`, whose model matrix scales the y axis
by 2. -/
theorem normal_is_inverse_transpose_witness :
    (eyeWorld.self.initialized_ = true ∧ eyeWorld.self.mesh_ = some sampleMesh ∧
      (upperLeft (eyeWorld.self.camera_.SetView * eyeWorld.self.camera_.SetModel)).det ≠ 0) ∧
    (mat3Uploads (issued eyeWorld (paintGL sampleEnv eyeWorld)) =
      mat3Uploads eyeWorld.self.camera_.SetViewport ++
        [normalOf eyeWorld.self.camera_.SetView eyeWorld.self.camera_.SetModel,
         normalOf eyeWorld.self.camera_.SetView eyeWorld.self.camera_.SetModel] ∧
    (normalOf eyeWorld.self.camera_.SetView eyeWorld.self.camera_.SetModel).transpose *
        upperLeft (eyeWorld.self.camera_.SetView * eyeWorld.self.camera_.SetModel) = 1 ∧
    upperLeft (eyeWorld.self.camera_.SetView * eyeWorld.self.camera_.SetModel) *
        (normalOf eyeWorld.self.camera_.SetView eyeWorld.self.camera_.SetModel).transpose = 1 ∧
    (∀ n t : Vec3,
      Matrix.dotProduct
          ((normalOf eyeWorld.self.camera_.SetView eyeWorld.self.camera_.SetModel).mulVec n)
          ((upperLeft (eyeWorld.self.camera_.SetView * eyeWorld.self.camera_.SetModel)).mulVec t) =
        Matrix.dotProduct n t)) :=
  ⟨⟨rfl, rfl, eyeWorld_block_det⟩,
    normal_is_inverse_transpose sampleEnv eyeWorld sampleMesh rfl rfl eyeWorld_block_det⟩

/-! ## Draws and mip generations of the pipeline -/

theorem moments_append (g : GLState) (a b : List GLCall) :
    moments g (a ++ b) = moments g a ++ moments (g.run a) b := by
  induction a generalizing g with
  | nil => rfl
  | cons c cs ih => cases c <;> simp [moments, run_cons, ih]

theorem targets_eq_moments (g : GLState) (cs : List GLCall) :
    (draws g cs).map Draw.renderTarget = (moments g cs).filterMap Moment.target := by
  induction cs generalizing g with
  | nil => rfl
  | cons c cs ih =>
    cases c <;> simp [moments, draws, isDraw, ih, Moment.target, List.filterMap_append]

theorem loadCubemapFileHDR_none (env : Env) (path : String) (s : World)
    (h : env.stbi_loadf path = none) :
    (loadCubemapFileHDR env path s).2 =
      { self := { s.self with
          captureFBO := s.nextName, captureRBO := s.nextName + 1,
          envCubemap := s.nextName + 2, irradianceMap := s.nextName + 3,
          prefilterMap := s.nextName + 4, brdfLUTTexture := s.nextName + 5 }
        nextName := s.nextName + 8
        calls := s.calls ++
          (framebufferCalls s.nextName (s.nextName + 1) ++
            (envMapCalls env s.nextName s.self.hdrTexture s.self.skyboxVAO (s.nextName + 2) ++
             irrMapCalls env s.nextName (s.nextName + 1) (s.nextName + 2) s.self.skyboxVAO
               (s.nextName + 3) ++
             prefilterCalls env s.nextName (s.nextName + 1) (s.nextName + 2) s.self.skyboxVAO
               (s.nextName + 4) ++
             brdfCalls s.nextName (s.nextName + 1) (s.nextName + 5) (s.nextName + 6)
               (s.nextName + 7))) } := by
  simp only [loadCubemapFileHDR]
  rw [setupFramebuffer_eq, loadHDRenvMap_none _ _ _ h, setupEnvMap_eq, setupIrrMap_eq,
    setupPrefilterMap_eq, setupBRDF_eq]
  simp only [List.append_assoc, Nat.add_assoc, Nat.reduceAdd]

theorem moments_framebufferCalls (fbo rbo : GLuint) (g : GLState) (hr : rbo ≠ 0) :
    (g.run (framebufferCalls fbo rbo)).depth fbo = some rbo ∧
    (g.run (framebufferCalls fbo rbo)).storage rbo = some (512, 512) ∧
    moments g (framebufferCalls fbo rbo) = [] := by
  refine ⟨?_, ?_, rfl⟩ <;>
  simp [framebufferCalls, run_cons, run_nil, GLState.exec, hr, GL_DEPTH_ATTACHMENT]

theorem moments_hdrCalls (img : StbiImage) (hdr : GLuint) (g : GLState) :
    (g.run (hdrCalls img hdr)).depth = g.depth ∧
    (g.run (hdrCalls img hdr)).storage = g.storage ∧
    moments g (hdrCalls img hdr) = [] :=
  ⟨rfl, rfl, rfl⟩

theorem depth_envMapCalls (env : Env) (fbo hdr vao envc : GLuint) (g : GLState) :
    (g.run (envMapCalls env fbo hdr vao envc)).depth = g.depth := by
  obtain ⟨a, b, c, d, e, f, g, h, i, j, k, l⟩ := g
  rfl

theorem depth_irrMapCalls (env : Env) (fbo rbo envc vao irr : GLuint) (g : GLState) :
    (g.run (irrMapCalls env fbo rbo envc vao irr)).depth = g.depth := by
  obtain ⟨a, b, c, d, e, f, g, h, i, j, k, l⟩ := g
  rfl

theorem depth_prefilterCalls (env : Env) (fbo rbo envc vao pre : GLuint) (g : GLState) :
    (g.run (prefilterCalls env fbo rbo envc vao pre)).depth = g.depth := by
  obtain ⟨a, b, c, d, e, f, g, h, i, j, k, l⟩ := g
  rfl

theorem moments_envMapCalls (env : Env) (fbo rbo hdr vao envc : GLuint) (g : GLState)
    (h2 : g.depth fbo = some rbo) (h3 : g.storage rbo = some (512, 512)) (he : envc ≠ 0) :
    moments g (envMapCalls env fbo hdr vao envc) = faceMoments fbo envc 0 512 := by
  simp [envMapCalls, allocCubeCalls, captureFaceCalls, range_six, moments, h2, h3, he,
    GLState.exec, isDraw, cubeDraw, GLState.draw, GLState.boundTo, isCubeFace,
    faceMoments, captureTarget, Draw.renderTarget, mipLevelSize, GL_TEXTURE_2D,
    GL_TEXTURE_CUBE_MAP, GL_TEXTURE_CUBE_MAP_POSITIVE_X, GL_TEXTURE_CUBE_MAP_NEGATIVE_Z,
    GL_DEPTH_ATTACHMENT, GL_COLOR_ATTACHMENT0]

theorem moments_irrMapCalls (env : Env) (fbo rbo envc vao irr : GLuint) (g : GLState)
    (h2 : g.depth fbo = some rbo) (hi : irr ≠ 0) :
    moments g (irrMapCalls env fbo rbo envc vao irr) =
      .generateMipmap envc :: faceMoments fbo irr 0 32 := by
  simp [irrMapCalls, allocCubeCalls, captureFaceCalls, range_six, moments, h2, hi,
    GLState.exec, isDraw, cubeDraw, GLState.draw, GLState.boundTo, isCubeFace,
    faceMoments, captureTarget, Draw.renderTarget, mipLevelSize, GL_TEXTURE_2D,
    GL_TEXTURE_CUBE_MAP, GL_TEXTURE_CUBE_MAP_POSITIVE_X, GL_TEXTURE_CUBE_MAP_NEGATIVE_Z,
    GL_DEPTH_ATTACHMENT, GL_COLOR_ATTACHMENT0]

set_option maxRecDepth 100000 in
set_option maxHeartbeats 2000000 in
theorem moments_prefilterCalls (env : Env) (fbo rbo envc vao pre : GLuint) (g : GLState)
    (h2 : g.depth fbo = some rbo) (hp : pre ≠ 0) :
    moments g (prefilterCalls env fbo rbo envc vao pre) =
      .generateMipmap pre ::
        (List.range maxMipLevels).flatMap (fun mip => faceMoments fbo pre mip (128 >>> mip)) := by
  simp [prefilterCalls, prefilterMipCalls, allocCubeCalls, captureFaceCalls, range_six,
    range_five, maxMipLevels, mipSize_values, moments, h2, hp,
    GLState.exec, isDraw, cubeDraw, GLState.draw, GLState.boundTo, isCubeFace,
    faceMoments, captureTarget, Draw.renderTarget, mipLevelSize, GL_TEXTURE_2D,
    GL_TEXTURE_CUBE_MAP, GL_TEXTURE_CUBE_MAP_POSITIVE_X, GL_TEXTURE_CUBE_MAP_NEGATIVE_Z,
    GL_DEPTH_ATTACHMENT, GL_COLOR_ATTACHMENT0]

theorem moments_brdfCalls (fbo rbo lut qa qb : GLuint) (g : GLState)
    (h2 : g.depth fbo = some rbo) (hl : lut ≠ 0) :
    moments g (brdfCalls fbo rbo lut qa qb) = [.draw (captureTarget fbo GL_TEXTURE_2D lut 0 512)] := by
  simp [brdfCalls, moments, h2, hl,
    GLState.exec, isDraw, cubeDraw, GLState.draw, GLState.boundTo, isCubeFace,
    faceMoments, captureTarget, Draw.renderTarget, mipLevelSize, GL_TEXTURE_2D,
    GL_TEXTURE_CUBE_MAP, GL_TEXTURE_CUBE_MAP_POSITIVE_X, GL_TEXTURE_CUBE_MAP_NEGATIVE_Z,
    GL_DEPTH_ATTACHMENT, GL_COLOR_ATTACHMENT0]

/-- The draws and mip generations of the four stages that follow the panorama,
from any state in which the capture framebuffer has the capture renderbuffer,
with 512 x 512 storage, as depth attachment. -/
theorem moments_stages (env : Env) (fbo rbo hdr vao envc irr pre lut qa qb : GLuint)
    (g : GLState) (h2 : g.depth fbo = some rbo) (h3 : g.storage rbo = some (512, 512))
    (he : envc ≠ 0) (hi : irr ≠ 0) (hp : pre ≠ 0) (hl : lut ≠ 0) :
    moments g (envMapCalls env fbo hdr vao envc ++ irrMapCalls env fbo rbo envc vao irr ++
      prefilterCalls env fbo rbo envc vao pre ++ brdfCalls fbo rbo lut qa qb) =
      pipelineMoments fbo envc irr pre lut := by
  have e3 := (congrFun (depth_envMapCalls env fbo hdr vao envc g) fbo).trans h2
  have e4 := (congrFun (depth_irrMapCalls env fbo rbo envc vao irr _) fbo).trans e3
  have e5 := (congrFun (depth_prefilterCalls env fbo rbo envc vao pre _) fbo).trans e4
  simp only [moments_append, run_append]
  rw [moments_envMapCalls env fbo rbo hdr vao envc g h2 h3 he,
    moments_irrMapCalls env fbo rbo envc vao irr _ e3 hi,
    moments_prefilterCalls env fbo rbo envc vao pre _ e4 hp,
    moments_brdfCalls fbo rbo lut qa qb _ e5 hl]
  simp only [pipelineMoments, List.append_assoc, List.cons_append, List.nil_append,
    List.singleton_append]

/-- The draws and mip generations of a run of `loadCubemapFileHDR`, whatever
the file, the result of decoding it, the world and the GL state it starts
from. -/
theorem moments_loadCubemapFileHDR (env : Env) (path : String) (s : World) (g : GLState) :
    moments g (issued s (loadCubemapFileHDR env path s).2) =
      pipelineMoments (loadCubemapFileHDR env path s).2.self.captureFBO
        (loadCubemapFileHDR env path s).2.self.envCubemap
        (loadCubemapFileHDR env path s).2.self.irradianceMap
        (loadCubemapFileHDR env path s).2.self.prefilterMap
        (loadCubemapFileHDR env path s).2.self.brdfLUTTexture := by
  obtain ⟨d1, s1, w1⟩ := moments_framebufferCalls s.nextName (s.nextName + 1) g
    (Nat.succ_ne_zero _)
  cases h : env.stbi_loadf path with
  | none =>
    have e := loadCubemapFileHDR_none env path s h
    have key := moments_stages env s.nextName (s.nextName + 1) s.self.hdrTexture
      s.self.skyboxVAO (s.nextName + 2) (s.nextName + 3) (s.nextName + 4) (s.nextName + 5)
      (s.nextName + 6) (s.nextName + 7) (g.run (framebufferCalls s.nextName (s.nextName + 1)))
      d1 s1 (Nat.succ_ne_zero _) (Nat.succ_ne_zero _) (Nat.succ_ne_zero _) (Nat.succ_ne_zero _)
    rw [issued_eq _ _ _ (congrArg World.calls e), e, moments_append, w1, List.nil_append]
    exact key
  | some img =>
    obtain ⟨d2, s2, w2⟩ := moments_hdrCalls img (s.nextName + 2) (g.run
      (framebufferCalls s.nextName (s.nextName + 1)))
    have e := loadCubemapFileHDR_some env path s img h
    have key := moments_stages env s.nextName (s.nextName + 1) (s.nextName + 2)
      s.self.skyboxVAO (s.nextName + 3) (s.nextName + 4) (s.nextName + 5) (s.nextName + 6)
      (s.nextName + 7) (s.nextName + 8)
      ((g.run (framebufferCalls s.nextName (s.nextName + 1))).run
        (hdrCalls img (s.nextName + 2)))
      ((congrFun d2 _).trans d1) ((congrFun s2 _).trans s1)
      (Nat.succ_ne_zero _) (Nat.succ_ne_zero _) (Nat.succ_ne_zero _) (Nat.succ_ne_zero _)
    rw [issued_eq _ _ _ (congrArg World.calls e), e]
    simp only [pipelineCalls, List.append_assoc, Nat.add_zero]
    rw [moments_append, w1, moments_append, w2, List.nil_append, List.nil_append]
    simp only [List.append_assoc] at key
    exact key

theorem pipelineMoments_targets (fbo envc irr pre lut : GLuint) :
    (pipelineMoments fbo envc irr pre lut).filterMap Moment.target =
      pipelineTargets fbo envc irr pre lut := by
  simp [pipelineMoments, pipelineTargets, faceMoments, range_six, range_five, maxMipLevels,
    Moment.target]

theorem pipelineTargets_square (fbo envc irr pre lut : GLuint) (t : Target)
    (ht : t ∈ pipelineTargets fbo envc irr pre lut) :
    t.framebuffer = fbo ∧
    ∃ n : Nat, t.viewport = (0, 0, n, n) ∧ t.colorSize = some ((n : Int), (n : Int)) ∧
      t.depthSize = some (n, n) := by
  simp only [pipelineTargets, List.mem_append, List.mem_map, List.mem_flatMap,
    List.mem_singleton] at ht
  rcases ht with ((⟨i, -, rfl⟩ | ⟨i, -, rfl⟩) | ⟨mip, -, i, -, rfl⟩) | rfl
  · exact ⟨rfl, 512, rfl, rfl, rfl⟩
  · exact ⟨rfl, 32, rfl, rfl, rfl⟩
  · exact ⟨rfl, 128 >>> mip, rfl, rfl, rfl⟩
  · exact ⟨rfl, 512, rfl, rfl, rfl⟩

theorem pipeline_names (env : Env) (path : String) (s : World) :
    (loadCubemapFileHDR env path s).2.self.captureFBO = s.nextName ∧
    s.nextName < (loadCubemapFileHDR env path s).2.self.envCubemap ∧
    (loadCubemapFileHDR env path s).2.self.irradianceMap =
      (loadCubemapFileHDR env path s).2.self.envCubemap + 1 ∧
    (loadCubemapFileHDR env path s).2.self.prefilterMap =
      (loadCubemapFileHDR env path s).2.self.envCubemap + 2 ∧
    (loadCubemapFileHDR env path s).2.self.brdfLUTTexture =
      (loadCubemapFileHDR env path s).2.self.envCubemap + 3 := by
  cases h : env.stbi_loadf path with
  | none =>
    rw [loadCubemapFileHDR_none env path s h]
    exact ⟨rfl, Nat.lt_add_of_pos_right (by decide), rfl, rfl, rfl⟩
  | some img =>
    rw [loadCubemapFileHDR_some env path s img h]
    exact ⟨rfl, Nat.lt_add_of_pos_right (by decide), rfl, rfl, rfl⟩

theorem pipelineMoments_after (fbo envc irr pre lut : GLuint) (hi : irr ≠ envc)
    (hp : pre ≠ envc) (hl : lut ≠ envc) (m : Moment)
    (hm : m ∈ faceMoments fbo irr 0 32 ++ [.generateMipmap pre] ++
        (List.range maxMipLevels).flatMap (fun mip => faceMoments fbo pre mip (128 >>> mip)) ++
        [.draw (captureTarget fbo GL_TEXTURE_2D lut 0 512)]) :
    m.drawsInto envc = false ∧ m ≠ .generateMipmap envc := by
  simp only [faceMoments, List.mem_append, List.mem_map, List.mem_flatMap,
    List.mem_singleton] at hm
  rcases hm with ((⟨i, -, rfl⟩ | rfl) | ⟨mip, -, i, -, rfl⟩) | rfl
  · simp [Moment.drawsInto, captureTarget, hi]
  · simp [Moment.drawsInto, hp]
  · simp [Moment.drawsInto, captureTarget, hp]
  · simp [Moment.drawsInto, captureTarget, hl]

/-! ## The target of every draw of the pipeline (C15) -/

/-- C15. In every run of the pipeline, whatever the file, the result of
decoding it, the world and the GL state it starts from, there are 43 draws: six
into the faces of the environment cube map, six into those of the irradiance
map, six into those of each of the five levels of the prefilter map, and one
into the BRDF table.  At each of them the capture framebuffer is bound, and
the viewport, the attached level of the colour attachment and the storage of the
depth attachment are squares of one same side: 512, 32, `128 >>> mip` and
512. -/
theorem draws_meet_capture_target (env : Env) (path : String) (s : World) (g : GLState) :
    (draws g (issued s (loadCubemapFileHDR env path s).2)).map Draw.renderTarget =
      pipelineTargets (loadCubemapFileHDR env path s).2.self.captureFBO
        (loadCubemapFileHDR env path s).2.self.envCubemap
        (loadCubemapFileHDR env path s).2.self.irradianceMap
        (loadCubemapFileHDR env path s).2.self.prefilterMap
        (loadCubemapFileHDR env path s).2.self.brdfLUTTexture ∧
    (draws g (issued s (loadCubemapFileHDR env path s).2)).length = 6 + 6 + 30 + 1 ∧
    ∀ d ∈ draws g (issued s (loadCubemapFileHDR env path s).2),
      d.framebuffer = (loadCubemapFileHDR env path s).2.self.captureFBO ∧
      ∃ n : Nat, d.viewport = (0, 0, n, n) ∧ d.colorSize = some ((n : Int), (n : Int)) ∧
        d.depthSize = some (n, n) := by
  have h := targets_eq_moments g (issued s (loadCubemapFileHDR env path s).2)
  rw [moments_loadCubemapFileHDR, pipelineMoments_targets] at h
  refine ⟨h, ?_, fun d hd => ?_⟩
  · have hl := congrArg List.length h
    rw [List.length_map] at hl
    rw [hl]
    simp [pipelineTargets, maxMipLevels, range_five]
  · have hd' := List.mem_map_of_mem Draw.renderTarget hd
    rw [h] at hd'
    obtain ⟨h1, n, h2, h3, h4⟩ := pipelineTargets_square _ _ _ _ _ _ hd'
    exact ⟨h1, n, h2, h3, h4⟩

/-! ## The mip chain of the environment cube map (C18) -/

/-- C18. In every run of the pipeline, whatever the file, the result of
decoding it, the world and the GL state it starts from, the draws and the mip
generations come in this order: the six draws into the faces of the environment
cube map, the generation of its mip chain, the six irradiance draws, the
generation of the mip chain of the prefilter map, the thirty prefilter draws,
the BRDF draw.  What follows the generation of the mip chain of the environment
cube map holds no draw into that cube map, and no second generation of its mip
chain. -/
theorem envCubemap_mipmap_after_faces (env : Env) (path : String) (s : World) (g : GLState) :
    moments g (issued s (loadCubemapFileHDR env path s).2) =
      pipelineMoments (loadCubemapFileHDR env path s).2.self.captureFBO
        (loadCubemapFileHDR env path s).2.self.envCubemap
        (loadCubemapFileHDR env path s).2.self.irradianceMap
        (loadCubemapFileHDR env path s).2.self.prefilterMap
        (loadCubemapFileHDR env path s).2.self.brdfLUTTexture ∧
    ∃ after : List Moment,
      moments g (issued s (loadCubemapFileHDR env path s).2) =
        faceMoments (loadCubemapFileHDR env path s).2.self.captureFBO
            (loadCubemapFileHDR env path s).2.self.envCubemap 0 512 ++
          .generateMipmap (loadCubemapFileHDR env path s).2.self.envCubemap :: after ∧
      (∀ m ∈ faceMoments (loadCubemapFileHDR env path s).2.self.captureFBO
            (loadCubemapFileHDR env path s).2.self.envCubemap 0 512,
        m.drawsInto (loadCubemapFileHDR env path s).2.self.envCubemap = true) ∧
      (after.filterMap Moment.target).length = 6 + 30 + 1 ∧
      ∀ m ∈ after,
        m.drawsInto (loadCubemapFileHDR env path s).2.self.envCubemap = false ∧
        m ≠ .generateMipmap (loadCubemapFileHDR env path s).2.self.envCubemap := by
  obtain ⟨-, -, h3, h4, h5⟩ := pipeline_names env path s
  refine ⟨moments_loadCubemapFileHDR env path s g,
    faceMoments (loadCubemapFileHDR env path s).2.self.captureFBO
        (loadCubemapFileHDR env path s).2.self.irradianceMap 0 32 ++
      [.generateMipmap (loadCubemapFileHDR env path s).2.self.prefilterMap] ++
      (List.range maxMipLevels).flatMap (fun mip =>
        faceMoments (loadCubemapFileHDR env path s).2.self.captureFBO
          (loadCubemapFileHDR env path s).2.self.prefilterMap mip (128 >>> mip)) ++
      [.draw (captureTarget (loadCubemapFileHDR env path s).2.self.captureFBO GL_TEXTURE_2D
        (loadCubemapFileHDR env path s).2.self.brdfLUTTexture 0 512)],
    ?_, ?_, ?_, fun m hm => pipelineMoments_after _ _ _ _ _ ?_ ?_ ?_ m hm⟩
  · rw [moments_loadCubemapFileHDR]
    simp only [pipelineMoments, List.append_assoc, List.singleton_append, List.cons_append,
      List.nil_append]
  · intro m hm
    simp only [faceMoments, List.mem_map] at hm
    obtain ⟨i, -, rfl⟩ := hm
    simp [Moment.drawsInto, captureTarget]
  · simp [faceMoments, maxMipLevels, range_five, range_six, Moment.target]
  · rw [h3]; exact Nat.ne_of_gt (Nat.lt_add_of_pos_right (by decide))
  · rw [h4]; exact Nat.ne_of_gt (Nat.lt_add_of_pos_right (by decide))
  · rw [h5]; exact Nat.ne_of_gt (Nat.lt_add_of_pos_right (by decide))

end FRR
